import Mathlib

/-!
ViGEmClient: bus session and target lifecycle.

A shallow embedding of `src/ViGEmClient.cpp`.  The library is sequential C++ code that talks
to the operating system and the bus driver; every call to the outside is recorded in a trace
of `Event`s, and the answers of the outside world come from a `System`, which may depend on
the whole trace so far (any deterministic or scripted driver is an instance).

Pointers are `Option`s (`none` is the null pointer).  Handles, callbacks and user pointers are
numbers.  `SerialNo` is a `ULONG` in the source; it is never incremented beyond
`VIGEM_TARGETS_MAX + 1`, and the cap of the driver headers is far below `2 ^ 32`, so it is a
natural number here.  The per-call completion events of the overlapped requests
(`DEVICE_IO_CONTROL_BEGIN` / `DEVICE_IO_CONTROL_END`) are local to each call and left out of
the trace; the timed await hands its overlapped structure to `CancelIoEx`, and there the
structure is named by its completion event.
-/

namespace ViGEm

/-! ## Data model -/

abbrev HANDLE := Nat
abbrev DWORD := Nat

/-- The sentinel `(HANDLE)-1` of an unopened session. -/
def INVALID_HANDLE_VALUE : HANDLE := 0xFFFFFFFFFFFFFFFF

def ERROR_SUCCESS : DWORD := 0
def ERROR_ACCESS_DENIED : DWORD := 5
def ERROR_GEN_FAILURE : DWORD := 31
def ERROR_INVALID_PARAMETER : DWORD := 87
def WAIT_TIMEOUT : DWORD := 258
def ERROR_OPERATION_ABORTED : DWORD := 995
def ERROR_IO_INCOMPLETE : DWORD := 996

inductive VIGEM_ERROR
  | NONE
  | BUS_NOT_FOUND
  | NO_FREE_SLOT
  | INVALID_TARGET
  | REMOVAL_FAILED
  | ALREADY_CONNECTED
  | TARGET_UNINITIALIZED
  | TARGET_NOT_PLUGGED_IN
  | BUS_VERSION_MISMATCH
  | BUS_ACCESS_FAILED
  | CALLBACK_ALREADY_REGISTERED
  | CALLBACK_NOT_FOUND
  | BUS_ALREADY_CONNECTED
  | BUS_INVALID_HANDLE
  | XUSB_USERINDEX_OUT_OF_RANGE
  | INVALID_PARAMETER
  | NOT_SUPPORTED
  | WINAPI
  | TIMED_OUT
  deriving DecidableEq, Repr

inductive VIGEM_TARGET_TYPE
  | Xbox360Wired
  | DualShock4Wired
  deriving DecidableEq, Repr

inductive VIGEM_TARGET_STATE
  | VIGEM_TARGET_NEW
  | VIGEM_TARGET_INITIALIZED
  | VIGEM_TARGET_CONNECTED
  | VIGEM_TARGET_DISCONNECTED
  deriving DecidableEq, Repr

open VIGEM_TARGET_TYPE VIGEM_TARGET_STATE

/-- The session object: one field, the bus handle. -/
structure VIGEM_CLIENT where
  hBusDevice : HANDLE
  deriving DecidableEq, Repr

/-- The target object.  `Notification = 0` and `CancelNotificationThreadEvent = 0` are the
null pointers of the source. -/
structure VIGEM_TARGET where
  Size : Nat
  SerialNo : Nat
  State : VIGEM_TARGET_STATE
  VendorId : Nat
  ProductId : Nat
  Type_ : VIGEM_TARGET_TYPE
  Notification : Nat
  NotificationUserData : Nat
  IsWaitReadyUnsupported : Bool
  CancelNotificationThreadEvent : HANDLE
  deriving DecidableEq, Repr

/-- Report payloads are opaque byte strings. -/
abbrev XUSB_REPORT := List Nat
abbrev DS4_REPORT := List Nat
abbrev DS4_REPORT_EX := List Nat
abbrev DS4_OUTPUT_BUFFER := List Nat

/-- The request structures handed to `DeviceIoControl`, one constructor per `*_INIT` helper. -/
inductive Ioctl
  | CHECK_VERSION (version : Nat)
  | PLUGIN_TARGET (serial : Nat) (type : VIGEM_TARGET_TYPE) (vid pid : Nat)
  | UNPLUG_TARGET (serial : Nat)
  | WAIT_DEVICE_READY (serial : Nat)
  | XUSB_SUBMIT_REPORT (serial : Nat) (report : XUSB_REPORT)
  | DS4_SUBMIT_REPORT (serial : Nat) (report : DS4_REPORT)
  | DS4_SUBMIT_REPORT_EX (serial : Nat) (report : DS4_REPORT_EX)
  | XUSB_REQUEST_NOTIFICATION (serial : Nat)
  | DS4_REQUEST_NOTIFICATION (serial : Nat)
  | XUSB_GET_USER_INDEX (serial : Nat)
  | DS4_AWAIT_OUTPUT_AVAILABLE (serial : Nat)
  deriving DecidableEq, Repr

/-- Kinds of detached worker threads the library starts. -/
inductive Worker
  | x360_notification
  | ds4_notification
  deriving DecidableEq, Repr

/-- The `OVERLAPPED` structure a call declares for its requests.  Of its fields only the
completion event is modelled; it tells one such structure from another. -/
structure OVERLAPPED where
  hEvent : HANDLE
  deriving DecidableEq, Repr

/-- Calls that leave the library. -/
inductive Event
  | SetupDiGetClassDevs
  | CreateFile (memberIndex : Nat)
  | DeviceIoControl (h : HANDLE) (req : Ioctl)
  | CloseHandle (h : HANDLE)
  | CancelIoEx (h : HANDLE) (lpOverlapped : OVERLAPPED)
  | CreateEvent
  | ResetEvent (h : HANDLE)
  | SetEvent (h : HANDLE)
  | thread (w : Worker) (userData : Nat)
  deriving DecidableEq, Repr

/-- How an overlapped request ended: the result of `GetOverlappedResult` (`ok` when it is
non-zero), the value `GetLastError` gives afterwards, and the fields of the output structure
as the driver left them. -/
structure Completion where
  ok : Bool
  lastError : DWORD
  SerialNo : Nat
  Buffer : DS4_OUTPUT_BUFFER
  deriving DecidableEq, Repr

/-- One entry of the device information set: whether the detail call succeeds and what
`CreateFile` returns for its path. -/
structure Device where
  detail : Bool
  createFile : HANDLE
  deriving DecidableEq, Repr

/-- The world outside the library.  Every answer may depend on all calls made so far.
`ioctl` is a request awaited without bound (`GetOverlappedResult` with `bWait = TRUE`),
`ioctlEx` one awaited for the given number of milliseconds (`GetOverlappedResultEx`). -/
structure System where
  classDevs : List Event → List Device
  ioctl : List Event → HANDLE → Ioctl → Completion
  ioctlEx : List Event → HANDLE → Ioctl → DWORD → Completion
  createEvent : List Event → HANDLE

/-- Compile-time constants of the driver headers, which are not part of this source file. -/
structure Config where
  VIGEM_TARGETS_MAX : Nat
  VIGEM_COMMON_VERSION : Nat

/-- The objects behind the two pointer arguments of the API, and the trace of outside calls. -/
structure State where
  vigem : Option VIGEM_CLIENT
  target : Option VIGEM_TARGET
  trace : List Event

/-! ## Session -/

def vigem_alloc : VIGEM_CLIENT :=
  { hBusDevice := INVALID_HANDLE_VALUE }

/-- The `while (SetupDiEnumDeviceInterfaces(...))` loop of `vigem_connect`: `devs` are the
entries not yet enumerated, `memberIndex` the index of the first of them. -/
def vigem_connect_loop (cfg : Config) (sys : System) :
    List Device → Nat → VIGEM_ERROR → VIGEM_CLIENT → List Event →
      VIGEM_ERROR × VIGEM_CLIENT × List Event
  | [], _, error, vigem, tr => (error, vigem, tr)
  | d :: devs, memberIndex, _, vigem, tr =>
    if d.detail = false then
      vigem_connect_loop cfg sys devs (memberIndex + 1) VIGEM_ERROR.BUS_NOT_FOUND vigem tr
    else
      let vigem1 : VIGEM_CLIENT := { vigem with hBusDevice := d.createFile }
      let tr1 := tr ++ [Event.CreateFile memberIndex]
      if vigem1.hBusDevice = INVALID_HANDLE_VALUE then
        vigem_connect_loop cfg sys devs (memberIndex + 1) VIGEM_ERROR.BUS_ACCESS_FAILED vigem1 tr1
      else
        let c := sys.ioctl tr1 vigem1.hBusDevice (Ioctl.CHECK_VERSION cfg.VIGEM_COMMON_VERSION)
        let tr2 := tr1 ++ [Event.DeviceIoControl vigem1.hBusDevice
          (Ioctl.CHECK_VERSION cfg.VIGEM_COMMON_VERSION)]
        if c.ok then
          (VIGEM_ERROR.NONE, vigem1, tr2)
        else
          vigem_connect_loop cfg sys devs (memberIndex + 1)
            VIGEM_ERROR.BUS_VERSION_MISMATCH vigem1 tr2

def vigem_connect (cfg : Config) (sys : System) (s : State) : VIGEM_ERROR × State :=
  match s.vigem with
  | none => (VIGEM_ERROR.BUS_INVALID_HANDLE, s)
  | some vigem =>
    if vigem.hBusDevice ≠ INVALID_HANDLE_VALUE then
      (VIGEM_ERROR.BUS_ALREADY_CONNECTED, s)
    else
      let tr := s.trace ++ [Event.SetupDiGetClassDevs]
      let r := vigem_connect_loop cfg sys (sys.classDevs s.trace) 0
        VIGEM_ERROR.BUS_NOT_FOUND vigem tr
      (r.1, { s with vigem := some r.2.1, trace := r.2.2 })

def vigem_disconnect (s : State) : State :=
  match s.vigem with
  | none => s
  | some vigem =>
    if vigem.hBusDevice ≠ INVALID_HANDLE_VALUE then
      { s with
        vigem := some { hBusDevice := INVALID_HANDLE_VALUE }
        trace := s.trace ++ [Event.CloseHandle vigem.hBusDevice] }
    else s

/-! ## Targets -/

/-- A zeroed target object with its size tag, state Initialized and the given type.  The size
tag is `sizeof(VIGEM_TARGET)` in the source; the layout is not modelled and the tag is 1. -/
def VIGEM_TARGET_ALLOC_INIT (Type_ : VIGEM_TARGET_TYPE) : VIGEM_TARGET :=
  { Size := 1
    SerialNo := 0
    State := VIGEM_TARGET_INITIALIZED
    VendorId := 0
    ProductId := 0
    Type_ := Type_
    Notification := 0
    NotificationUserData := 0
    IsWaitReadyUnsupported := false
    CancelNotificationThreadEvent := 0 }

def vigem_target_x360_alloc : VIGEM_TARGET :=
  { VIGEM_TARGET_ALLOC_INIT Xbox360Wired with VendorId := 0x045E, ProductId := 0x028E }

def vigem_target_ds4_alloc : VIGEM_TARGET :=
  { VIGEM_TARGET_ALLOC_INIT DualShock4Wired with VendorId := 0x054C, ProductId := 0x05C4 }

def vigem_target_is_waitable_add_supported (target : Option VIGEM_TARGET) : Bool :=
  match target with
  | none => false
  | some t => !t.IsWaitReadyUnsupported

def vigem_target_get_index (target : VIGEM_TARGET) : Nat := target.SerialNo

def vigem_target_get_type (target : VIGEM_TARGET) : VIGEM_TARGET_TYPE := target.Type_

def vigem_target_is_attached (target : VIGEM_TARGET) : Bool :=
  decide (target.State = VIGEM_TARGET_CONNECTED)

def vigem_target_get_vid (target : VIGEM_TARGET) : Nat := target.VendorId

def vigem_target_get_pid (target : VIGEM_TARGET) : Nat := target.ProductId

def vigem_target_set_vid (target : VIGEM_TARGET) (vid : Nat) : VIGEM_TARGET :=
  { target with VendorId := vid % 2 ^ 16 }

def vigem_target_set_pid (target : VIGEM_TARGET) (pid : Nat) : VIGEM_TARGET :=
  { target with ProductId := pid % 2 ^ 16 }

/-! ## Plug and unplug -/

def vigem_target_remove (sys : System) (s : State) : VIGEM_ERROR × State :=
  match s.vigem with
  | none => (VIGEM_ERROR.BUS_INVALID_HANDLE, s)
  | some vigem =>
    match s.target with
    | none => (VIGEM_ERROR.INVALID_TARGET, s)
    | some target =>
      if vigem.hBusDevice = INVALID_HANDLE_VALUE then
        (VIGEM_ERROR.BUS_NOT_FOUND, s)
      else if target.State = VIGEM_TARGET_NEW then
        (VIGEM_ERROR.TARGET_UNINITIALIZED, s)
      else if target.State ≠ VIGEM_TARGET_CONNECTED then
        (VIGEM_ERROR.TARGET_NOT_PLUGGED_IN, s)
      else
        let req := Ioctl.UNPLUG_TARGET target.SerialNo
        let c := sys.ioctl s.trace vigem.hBusDevice req
        let tr := s.trace ++ [Event.DeviceIoControl vigem.hBusDevice req]
        if c.ok then
          (VIGEM_ERROR.NONE,
            { s with target := some { target with State := VIGEM_TARGET_DISCONNECTED }
                     trace := tr })
        else
          (VIGEM_ERROR.REMOVAL_FAILED, { s with trace := tr })

/-- The `for (target->SerialNo = 1; target->SerialNo <= VIGEM_TARGETS_MAX; target->SerialNo++)`
loop of `vigem_target_add`, entered with the current value of `target.SerialNo`. -/
def vigem_target_add_loop (cfg : Config) (sys : System) (vigem : VIGEM_CLIENT)
    (target : VIGEM_TARGET) (tr : List Event) : VIGEM_ERROR × State :=
  if target.SerialNo ≤ cfg.VIGEM_TARGETS_MAX then
    let plugin := Ioctl.PLUGIN_TARGET target.SerialNo target.Type_ target.VendorId target.ProductId
    let c := sys.ioctl tr vigem.hBusDevice plugin
    let tr1 := tr ++ [Event.DeviceIoControl vigem.hBusDevice plugin]
    if c.ok then
      let devReady := Ioctl.WAIT_DEVICE_READY target.SerialNo
      let w := sys.ioctl tr1 vigem.hBusDevice devReady
      let tr2 := tr1 ++ [Event.DeviceIoControl vigem.hBusDevice devReady]
      if w.ok then
        (VIGEM_ERROR.NONE,
          { vigem := some vigem
            target := some { target with State := VIGEM_TARGET_CONNECTED }
            trace := tr2 })
      else if w.lastError = ERROR_INVALID_PARAMETER then
        (VIGEM_ERROR.NONE,
          { vigem := some vigem
            target := some { target with State := VIGEM_TARGET_CONNECTED
                                         IsWaitReadyUnsupported := true }
            trace := tr2 })
      else
        vigem_target_remove sys { vigem := some vigem, target := some target, trace := tr2 }
    else
      vigem_target_add_loop cfg sys vigem { target with SerialNo := target.SerialNo + 1 } tr1
  else
    (VIGEM_ERROR.NO_FREE_SLOT, { vigem := some vigem, target := some target, trace := tr })
termination_by cfg.VIGEM_TARGETS_MAX + 1 - target.SerialNo
decreasing_by simp_wf; omega

def vigem_target_add (cfg : Config) (sys : System) (s : State) : VIGEM_ERROR × State :=
  match s.vigem with
  | none => (VIGEM_ERROR.BUS_INVALID_HANDLE, s)
  | some vigem =>
    match s.target with
    | none => (VIGEM_ERROR.INVALID_TARGET, s)
    | some target =>
      if vigem.hBusDevice = INVALID_HANDLE_VALUE then
        (VIGEM_ERROR.BUS_NOT_FOUND, s)
      else if target.State = VIGEM_TARGET_NEW then
        (VIGEM_ERROR.TARGET_UNINITIALIZED, s)
      else if target.State = VIGEM_TARGET_CONNECTED then
        (VIGEM_ERROR.ALREADY_CONNECTED, s)
      else
        vigem_target_add_loop cfg sys vigem { target with SerialNo := 1 } s.trace

/-! ## Notifications -/

def vigem_target_x360_register_notification (sys : System) (s : State)
    (notification : Nat) (userData : Nat) : VIGEM_ERROR × State :=
  match s.vigem with
  | none => (VIGEM_ERROR.BUS_INVALID_HANDLE, s)
  | some vigem =>
    match s.target with
    | none => (VIGEM_ERROR.INVALID_TARGET, s)
    | some target =>
      if vigem.hBusDevice = INVALID_HANDLE_VALUE then
        (VIGEM_ERROR.BUS_NOT_FOUND, s)
      else if target.SerialNo = 0 ∨ notification = 0 then
        (VIGEM_ERROR.INVALID_TARGET, s)
      else if target.Notification = notification then
        (VIGEM_ERROR.CALLBACK_ALREADY_REGISTERED, s)
      else
        let target1 := { target with Notification := notification
                                     NotificationUserData := userData }
        if target1.CancelNotificationThreadEvent = 0 then
          (VIGEM_ERROR.NONE,
            { s with
              target := some { target1 with
                CancelNotificationThreadEvent := sys.createEvent s.trace }
              trace := s.trace ++ [Event.CreateEvent,
                Event.thread Worker.x360_notification userData] })
        else
          (VIGEM_ERROR.NONE,
            { s with
              target := some target1
              trace := s.trace ++ [Event.ResetEvent target1.CancelNotificationThreadEvent,
                Event.thread Worker.x360_notification userData] })

def vigem_target_ds4_register_notification (sys : System) (s : State)
    (notification : Nat) (userData : Nat) : VIGEM_ERROR × State :=
  match s.vigem with
  | none => (VIGEM_ERROR.BUS_INVALID_HANDLE, s)
  | some vigem =>
    match s.target with
    | none => (VIGEM_ERROR.INVALID_TARGET, s)
    | some target =>
      if vigem.hBusDevice = INVALID_HANDLE_VALUE then
        (VIGEM_ERROR.BUS_NOT_FOUND, s)
      else if target.SerialNo = 0 ∨ notification = 0 then
        (VIGEM_ERROR.INVALID_TARGET, s)
      else if target.Notification = notification then
        (VIGEM_ERROR.CALLBACK_ALREADY_REGISTERED, s)
      else
        let target1 := { target with Notification := notification
                                     NotificationUserData := userData }
        if target1.CancelNotificationThreadEvent = 0 then
          (VIGEM_ERROR.NONE,
            { s with
              target := some { target1 with
                CancelNotificationThreadEvent := sys.createEvent s.trace }
              trace := s.trace ++ [Event.CreateEvent,
                Event.thread Worker.ds4_notification userData] })
        else
          (VIGEM_ERROR.NONE,
            { s with
              target := some target1
              trace := s.trace ++ [Event.ResetEvent target1.CancelNotificationThreadEvent,
                Event.thread Worker.ds4_notification userData] })

/-- The source dereferences `target` without a null check, so the model takes the object. -/
def vigem_target_x360_unregister_notification (target : VIGEM_TARGET) (tr : List Event) :
    VIGEM_TARGET × List Event :=
  let tr1 := if target.CancelNotificationThreadEvent ≠ 0 then
      tr ++ [Event.SetEvent target.CancelNotificationThreadEvent] else tr
  let r : VIGEM_TARGET × List Event :=
    if target.CancelNotificationThreadEvent ≠ 0 then
      ({ target with CancelNotificationThreadEvent := 0 },
        tr1 ++ [Event.CloseHandle target.CancelNotificationThreadEvent])
    else (target, tr1)
  ({ r.1 with Notification := 0, NotificationUserData := 0 }, r.2)

def vigem_target_ds4_unregister_notification (target : VIGEM_TARGET) (tr : List Event) :
    VIGEM_TARGET × List Event :=
  vigem_target_x360_unregister_notification target tr

/-! ## Report submission -/

def vigem_target_x360_update (sys : System) (s : State) (report : XUSB_REPORT) :
    VIGEM_ERROR × State :=
  match s.vigem with
  | none => (VIGEM_ERROR.BUS_INVALID_HANDLE, s)
  | some vigem =>
    match s.target with
    | none => (VIGEM_ERROR.INVALID_TARGET, s)
    | some target =>
      if vigem.hBusDevice = INVALID_HANDLE_VALUE then
        (VIGEM_ERROR.BUS_NOT_FOUND, s)
      else if target.SerialNo = 0 then
        (VIGEM_ERROR.INVALID_TARGET, s)
      else
        let xsr := Ioctl.XUSB_SUBMIT_REPORT target.SerialNo report
        let c := sys.ioctl s.trace vigem.hBusDevice xsr
        let s1 := { s with trace := s.trace ++ [Event.DeviceIoControl vigem.hBusDevice xsr] }
        if c.ok = false ∧ c.lastError = ERROR_ACCESS_DENIED then
          (VIGEM_ERROR.INVALID_TARGET, s1)
        else
          (VIGEM_ERROR.NONE, s1)

def vigem_target_ds4_update (sys : System) (s : State) (report : DS4_REPORT) :
    VIGEM_ERROR × State :=
  match s.vigem with
  | none => (VIGEM_ERROR.BUS_INVALID_HANDLE, s)
  | some vigem =>
    match s.target with
    | none => (VIGEM_ERROR.INVALID_TARGET, s)
    | some target =>
      if vigem.hBusDevice = INVALID_HANDLE_VALUE then
        (VIGEM_ERROR.BUS_NOT_FOUND, s)
      else if target.SerialNo = 0 then
        (VIGEM_ERROR.INVALID_TARGET, s)
      else
        let dsr := Ioctl.DS4_SUBMIT_REPORT target.SerialNo report
        let c := sys.ioctl s.trace vigem.hBusDevice dsr
        let s1 := { s with trace := s.trace ++ [Event.DeviceIoControl vigem.hBusDevice dsr] }
        if c.ok = false ∧ c.lastError = ERROR_ACCESS_DENIED then
          (VIGEM_ERROR.INVALID_TARGET, s1)
        else
          (VIGEM_ERROR.NONE, s1)

def vigem_target_ds4_update_ex (sys : System) (s : State) (report : DS4_REPORT_EX) :
    VIGEM_ERROR × State :=
  match s.vigem with
  | none => (VIGEM_ERROR.BUS_INVALID_HANDLE, s)
  | some vigem =>
    match s.target with
    | none => (VIGEM_ERROR.INVALID_TARGET, s)
    | some target =>
      if vigem.hBusDevice = INVALID_HANDLE_VALUE then
        (VIGEM_ERROR.BUS_NOT_FOUND, s)
      else if target.SerialNo = 0 then
        (VIGEM_ERROR.INVALID_TARGET, s)
      else
        let dsr := Ioctl.DS4_SUBMIT_REPORT_EX target.SerialNo report
        let c := sys.ioctl s.trace vigem.hBusDevice dsr
        let s1 := { s with trace := s.trace ++ [Event.DeviceIoControl vigem.hBusDevice dsr] }
        if c.ok = false ∧ c.lastError = ERROR_ACCESS_DENIED then
          (VIGEM_ERROR.INVALID_TARGET, s1)
        else if c.ok = false ∧ c.lastError = ERROR_INVALID_PARAMETER then
          (VIGEM_ERROR.NOT_SUPPORTED, s1)
        else
          (VIGEM_ERROR.NONE, s1)

/-! ## Awaiting DS4 output reports -/

/-- The code from the label `retry:` on.  Every `goto retry` uses one unit of `fuel`; the
result is `none` when the fuel runs out before the function returns.  `buffer` is the content
of the caller's buffer, returned as the function leaves it. -/
def vigem_target_ds4_await_output_report_retry (sys : System) (vigem : VIGEM_CLIENT)
    (target : VIGEM_TARGET) (buffer : DS4_OUTPUT_BUFFER) :
    Nat → List Event → Option (VIGEM_ERROR × DS4_OUTPUT_BUFFER × List Event)
  | 0, _ => none
  | fuel + 1, tr =>
    let req := Ioctl.DS4_AWAIT_OUTPUT_AVAILABLE target.SerialNo
    let await := sys.ioctl tr vigem.hBusDevice req
    let tr1 := tr ++ [Event.DeviceIoControl vigem.hBusDevice req]
    if await.ok = false then
      let error := await.lastError
      if error = ERROR_ACCESS_DENIED then
        some (VIGEM_ERROR.INVALID_TARGET, buffer, tr1)
      else if error = ERROR_SUCCESS ∧ await.SerialNo ≠ target.SerialNo then
        vigem_target_ds4_await_output_report_retry sys vigem target buffer fuel tr1
      else
        some (VIGEM_ERROR.WINAPI, buffer, tr1)
    else
      some (VIGEM_ERROR.NONE, await.Buffer, tr1)

/-- The caller's buffer pointer is `buffer`: `none` is null, `some b` a buffer holding `b`. -/
def vigem_target_ds4_await_output_report (sys : System) (fuel : Nat) (s : State)
    (buffer : Option DS4_OUTPUT_BUFFER) :
    Option (VIGEM_ERROR × Option DS4_OUTPUT_BUFFER × State) :=
  match s.vigem with
  | none => some (VIGEM_ERROR.BUS_INVALID_HANDLE, buffer, s)
  | some vigem =>
    match s.target with
    | none => some (VIGEM_ERROR.INVALID_TARGET, buffer, s)
    | some target =>
      if vigem.hBusDevice = INVALID_HANDLE_VALUE then
        some (VIGEM_ERROR.BUS_NOT_FOUND, buffer, s)
      else if target.SerialNo = 0 then
        some (VIGEM_ERROR.INVALID_TARGET, buffer, s)
      else
        match buffer with
        | none => some (VIGEM_ERROR.INVALID_PARAMETER, buffer, s)
        | some b =>
          (vigem_target_ds4_await_output_report_retry sys vigem target b fuel s.trace).map
            fun r => (r.1, some r.2.1, { s with trace := r.2.2 })

/-- Modelled from the spec: the macro `DEVICE_IO_CONTROL_BEGIN` of `Internal.h`, which is not
in this source file.  It declares the overlapped structure `lOverlapped` of the call and binds
a fresh completion event to it; every request of the call is posted with this structure. -/
def DEVICE_IO_CONTROL_BEGIN (sys : System) (tr : List Event) : OVERLAPPED :=
  { hEvent := sys.createEvent tr }

/-- The code of the timed await from the label `retry:` on, with the overlapped structure
`lOverlapped` declared before the label. -/
def vigem_target_ds4_await_output_report_timeout_retry (sys : System) (vigem : VIGEM_CLIENT)
    (target : VIGEM_TARGET) (milliseconds : DWORD) (buffer : DS4_OUTPUT_BUFFER)
    (lOverlapped : OVERLAPPED) :
    Nat → List Event → Option (VIGEM_ERROR × DS4_OUTPUT_BUFFER × List Event)
  | 0, _ => none
  | fuel + 1, tr =>
    let req := Ioctl.DS4_AWAIT_OUTPUT_AVAILABLE target.SerialNo
    let await := sys.ioctlEx tr vigem.hBusDevice req milliseconds
    let tr1 := tr ++ [Event.DeviceIoControl vigem.hBusDevice req]
    if await.ok = false then
      let error := await.lastError
      if error = ERROR_ACCESS_DENIED then
        some (VIGEM_ERROR.INVALID_TARGET, buffer, tr1)
      else if error = ERROR_IO_INCOMPLETE ∨ error = WAIT_TIMEOUT then
        some (VIGEM_ERROR.TIMED_OUT, buffer,
          tr1 ++ [Event.CancelIoEx vigem.hBusDevice lOverlapped])
      else if error = ERROR_SUCCESS ∧ await.SerialNo ≠ target.SerialNo then
        vigem_target_ds4_await_output_report_timeout_retry sys vigem target milliseconds
          buffer lOverlapped fuel tr1
      else
        some (VIGEM_ERROR.WINAPI, buffer, tr1)
    else
      some (VIGEM_ERROR.NONE, await.Buffer, tr1)

def vigem_target_ds4_await_output_report_timeout (sys : System) (fuel : Nat) (s : State)
    (milliseconds : DWORD) (buffer : Option DS4_OUTPUT_BUFFER) :
    Option (VIGEM_ERROR × Option DS4_OUTPUT_BUFFER × State) :=
  match s.vigem with
  | none => some (VIGEM_ERROR.BUS_INVALID_HANDLE, buffer, s)
  | some vigem =>
    match s.target with
    | none => some (VIGEM_ERROR.INVALID_TARGET, buffer, s)
    | some target =>
      if vigem.hBusDevice = INVALID_HANDLE_VALUE then
        some (VIGEM_ERROR.BUS_NOT_FOUND, buffer, s)
      else if target.SerialNo = 0 then
        some (VIGEM_ERROR.INVALID_TARGET, buffer, s)
      else
        match buffer with
        | none => some (VIGEM_ERROR.INVALID_PARAMETER, buffer, s)
        | some b =>
          let lOverlapped := DEVICE_IO_CONTROL_BEGIN sys s.trace
          (vigem_target_ds4_await_output_report_timeout_retry sys vigem target milliseconds b
            lOverlapped fuel s.trace).map
            fun r => (r.1, some r.2.1, { s with trace := r.2.2 })

/-! ## Sequences of library operations on one session and one target -/

/-- The operations a caller can apply to the session and the target, with their arguments. -/
inductive Op
  | connect
  | disconnect
  | add
  | remove
  | x360_register_notification (notification userData : Nat)
  | ds4_register_notification (notification userData : Nat)
  | x360_unregister_notification
  | ds4_unregister_notification
  | x360_update (report : XUSB_REPORT)
  | ds4_update (report : DS4_REPORT)
  | ds4_update_ex (report : DS4_REPORT_EX)
  | set_vid (vid : Nat)
  | set_pid (pid : Nat)
  deriving DecidableEq, Repr

/-- Apply a function that needs a target object; with a null target nothing is done. -/
def onTarget (s : State) (f : VIGEM_TARGET → List Event → VIGEM_TARGET × List Event) :
    State :=
  match s.target with
  | none => s
  | some t => { s with target := some (f t s.trace).1, trace := (f t s.trace).2 }

/-- One operation: the state after the call (the returned error is dropped). -/
def applyOp (cfg : Config) (sys : System) (s : State) : Op → State
  | Op.connect => (vigem_connect cfg sys s).2
  | Op.disconnect => vigem_disconnect s
  | Op.add => (vigem_target_add cfg sys s).2
  | Op.remove => (vigem_target_remove sys s).2
  | Op.x360_register_notification n u => (vigem_target_x360_register_notification sys s n u).2
  | Op.ds4_register_notification n u => (vigem_target_ds4_register_notification sys s n u).2
  | Op.x360_unregister_notification => onTarget s vigem_target_x360_unregister_notification
  | Op.ds4_unregister_notification => onTarget s vigem_target_ds4_unregister_notification
  | Op.x360_update r => (vigem_target_x360_update sys s r).2
  | Op.ds4_update r => (vigem_target_ds4_update sys s r).2
  | Op.ds4_update_ex r => (vigem_target_ds4_update_ex sys s r).2
  | Op.set_vid vid => onTarget s fun t tr => (vigem_target_set_vid t vid, tr)
  | Op.set_pid pid => onTarget s fun t tr => (vigem_target_set_pid t pid, tr)

/-- A sequence of operations, applied from left to right. -/
def runOps (cfg : Config) (sys : System) : List Op → State → State
  | [], s => s
  | op :: ops, s => runOps cfg sys ops (applyOp cfg sys s op)

/-- The target of the state is an object whose serial is non-zero if it is Connected or
Disconnected. -/
def PluggedHasSerial (s : State) : Prop :=
  ∃ t, s.target = some t ∧
    (t.State = VIGEM_TARGET_CONNECTED ∨ t.State = VIGEM_TARGET_DISCONNECTED → t.SerialNo ≠ 0)

/-! ## The slot search of `vigem_target_add`, as the specification describes it -/

/-- The plugin request built for serial `j`: it carries the target's type, VID and PID. -/
def pluginRequest (target : VIGEM_TARGET) (j : Nat) : Ioctl :=
  Ioctl.PLUGIN_TARGET j target.Type_ target.VendorId target.ProductId

/-- The plugin requests for the `n` serials from `first` on, as they appear in the trace. -/
def pluginEvents (vigem : VIGEM_CLIENT) (target : VIGEM_TARGET) (first n : Nat) : List Event :=
  (List.range' first n).map fun j => Event.DeviceIoControl vigem.hBusDevice (pluginRequest target j)

/-- Whether the driver accepts the plugin request for serial `j`, issued after the requests
for the serials below `j` (the add started with trace `tr`). -/
def pluginAccepted (sys : System) (vigem : VIGEM_CLIENT) (target : VIGEM_TARGET)
    (tr : List Event) (j : Nat) : Bool :=
  (sys.ioctl (tr ++ pluginEvents vigem target 1 (j - 1)) vigem.hBusDevice
    (pluginRequest target j)).ok

/-- The least serial in `1..VIGEM_TARGETS_MAX` whose plugin request the driver accepts. -/
def firstAccepted (cfg : Config) (sys : System) (vigem : VIGEM_CLIENT) (target : VIGEM_TARGET)
    (tr : List Event) : Option Nat :=
  (List.range' 1 cfg.VIGEM_TARGETS_MAX).find? (pluginAccepted sys vigem target tr)

/-- The wait-device-ready request for serial `k`, as it appears in the trace. -/
def waitEvent (vigem : VIGEM_CLIENT) (k : Nat) : Event :=
  Event.DeviceIoControl vigem.hBusDevice (Ioctl.WAIT_DEVICE_READY k)

/-- The completion of the wait-device-ready request that follows the accepted plugin request
for serial `k`. -/
def waitCompletion (sys : System) (vigem : VIGEM_CLIENT) (target : VIGEM_TARGET)
    (tr : List Event) (k : Nat) : Completion :=
  sys.ioctl (tr ++ pluginEvents vigem target 1 k) vigem.hBusDevice (Ioctl.WAIT_DEVICE_READY k)

/-! ## Notification workers

The body of the thread started by a registration function.  The thread runs beside the
caller, so what it sees is given as a list: one entry for each request-notification request
that ended, in order, with the way it ended and the value of `_Target->Notification` the
thread read then (the null test and the call are taken to read the same value).  The thread
is given the pointers `_Target` and `_Client` and hands them on to the callback; they are
named here by the objects `Target` and `Client` the thread was started with. -/

/-- The in/out structure of the Xbox-360 request-notification request. -/
structure XUSB_REQUEST_NOTIFICATION where
  SerialNo : Nat
  LargeMotor : Nat
  SmallMotor : Nat
  LedNumber : Nat
  deriving DecidableEq, Repr

structure DS4_LIGHTBAR_COLOR where
  Red : Nat
  Green : Nat
  Blue : Nat
  deriving DecidableEq, Repr

structure DS4_OUTPUT_REPORT where
  LargeMotor : Nat
  SmallMotor : Nat
  LightbarColor : DS4_LIGHTBAR_COLOR
  deriving DecidableEq, Repr

/-- The in/out structure of the DS4 request-notification request. -/
structure DS4_REQUEST_NOTIFICATION where
  SerialNo : Nat
  Report : DS4_OUTPUT_REPORT
  deriving DecidableEq, Repr

/-- Modelled from the spec: the helper `XUSB_REQUEST_NOTIFICATION_INIT` of the driver header,
which is not in this source file; it builds a request carrying the given serial. -/
def XUSB_REQUEST_NOTIFICATION_INIT (SerialNo : Nat) : XUSB_REQUEST_NOTIFICATION :=
  { SerialNo := SerialNo, LargeMotor := 0, SmallMotor := 0, LedNumber := 0 }

/-- Modelled from the spec: the helper `DS4_REQUEST_NOTIFICATION_INIT` of the driver header,
which is not in this source file; it builds a request carrying the given serial. -/
def DS4_REQUEST_NOTIFICATION_INIT (SerialNo : Nat) : DS4_REQUEST_NOTIFICATION :=
  { SerialNo := SerialNo
    Report := { LargeMotor := 0, SmallMotor := 0
                LightbarColor := { Red := 0, Green := 0, Blue := 0 } } }

/-- How one request of the Xbox-360 worker ended: `GetOverlappedResult` non-zero or not,
`GetLastError`, the structure as the driver left it, and `_Target->Notification` as read by
the worker at that moment. -/
structure X360Outcome where
  ok : Bool
  lastError : DWORD
  xrn : XUSB_REQUEST_NOTIFICATION
  Notification : Nat
  deriving DecidableEq, Repr

/-- How one request of the DS4 worker ended. -/
structure DS4Outcome where
  ok : Bool
  lastError : DWORD
  ds4rn : DS4_REQUEST_NOTIFICATION
  Notification : Nat
  deriving DecidableEq, Repr

/-- What a worker does: requests to the driver, and calls of the stored callback
`Notification` with the session, the target, the decoded fields and the user pointer. -/
inductive WorkerEvent
  | DeviceIoControl (h : HANDLE) (req : Ioctl)
  | x360_callback (Notification : Nat) (Client : VIGEM_CLIENT) (Target : VIGEM_TARGET)
      (LargeMotor SmallMotor LedNumber : Nat) (UserData : Nat)
  | ds4_callback (Notification : Nat) (Client : VIGEM_CLIENT) (Target : VIGEM_TARGET)
      (LargeMotor SmallMotor : Nat) (LightbarColor : DS4_LIGHTBAR_COLOR) (UserData : Nat)
  deriving DecidableEq, Repr

/-- A worker after the outcomes given to it: what it did, and whether it has returned (if
not, it waits for its last request to end). -/
structure WorkerRun where
  events : List WorkerEvent
  exited : Bool
  deriving DecidableEq, Repr

/-- The `do ... while (TRUE)` loop of the Xbox-360 worker, entered with the request
structure `xrn` as it is now. -/
def x360_notification_loop (Target : VIGEM_TARGET) (Client : VIGEM_CLIENT) (UserData : Nat) :
    XUSB_REQUEST_NOTIFICATION → List X360Outcome → WorkerRun
  | xrn, [] =>
    { events := [WorkerEvent.DeviceIoControl Client.hBusDevice
        (Ioctl.XUSB_REQUEST_NOTIFICATION xrn.SerialNo)]
      exited := false }
  | xrn, o :: os =>
    let request := WorkerEvent.DeviceIoControl Client.hBusDevice
      (Ioctl.XUSB_REQUEST_NOTIFICATION xrn.SerialNo)
    if o.ok then
      if o.Notification = 0 then
        { events := [request], exited := true }
      else
        let rest := x360_notification_loop Target Client UserData o.xrn os
        { events := request ::
            WorkerEvent.x360_callback o.Notification Client Target o.xrn.LargeMotor
              o.xrn.SmallMotor o.xrn.LedNumber UserData :: rest.events
          exited := rest.exited }
    else if o.lastError = ERROR_ACCESS_DENIED ∨ o.lastError = ERROR_OPERATION_ABORTED then
      { events := [request], exited := true }
    else
      let rest := x360_notification_loop Target Client UserData o.xrn os
      { events := request :: rest.events, exited := rest.exited }

/-- The thread started by `vigem_target_x360_register_notification`. -/
def x360_notification_thread (Target : VIGEM_TARGET) (Client : VIGEM_CLIENT) (UserData : Nat)
    (outcomes : List X360Outcome) : WorkerRun :=
  x360_notification_loop Target Client UserData
    (XUSB_REQUEST_NOTIFICATION_INIT Target.SerialNo) outcomes

/-- The `do ... while (TRUE)` loop of the DS4 worker, entered with the request structure
`ds4rn` as it is now. -/
def ds4_notification_loop (Target : VIGEM_TARGET) (Client : VIGEM_CLIENT) (UserData : Nat) :
    DS4_REQUEST_NOTIFICATION → List DS4Outcome → WorkerRun
  | ds4rn, [] =>
    { events := [WorkerEvent.DeviceIoControl Client.hBusDevice
        (Ioctl.DS4_REQUEST_NOTIFICATION ds4rn.SerialNo)]
      exited := false }
  | ds4rn, o :: os =>
    let request := WorkerEvent.DeviceIoControl Client.hBusDevice
      (Ioctl.DS4_REQUEST_NOTIFICATION ds4rn.SerialNo)
    if o.ok then
      if o.Notification = 0 then
        { events := [request], exited := true }
      else
        let rest := ds4_notification_loop Target Client UserData o.ds4rn os
        { events := request ::
            WorkerEvent.ds4_callback o.Notification Client Target o.ds4rn.Report.LargeMotor
              o.ds4rn.Report.SmallMotor o.ds4rn.Report.LightbarColor UserData :: rest.events
          exited := rest.exited }
    else if o.lastError = ERROR_ACCESS_DENIED ∨ o.lastError = ERROR_OPERATION_ABORTED then
      { events := [request], exited := true }
    else
      let rest := ds4_notification_loop Target Client UserData o.ds4rn os
      { events := request :: rest.events, exited := rest.exited }

/-- The thread started by `vigem_target_ds4_register_notification`. -/
def ds4_notification_thread (Target : VIGEM_TARGET) (Client : VIGEM_CLIENT) (UserData : Nat)
    (outcomes : List DS4Outcome) : WorkerRun :=
  ds4_notification_loop Target Client UserData
    (DS4_REQUEST_NOTIFICATION_INIT Target.SerialNo) outcomes

/-! ### The worker in the words of the specification -/

/-- The calls of callbacks among the events of a worker. -/
def callbacks (events : List WorkerEvent) : List WorkerEvent :=
  events.filter fun ev =>
    match ev with
    | WorkerEvent.DeviceIoControl _ _ => false
    | _ => true

/-- An outcome at which the Xbox-360 worker exits: a success seen while the stored callback
is null, or a failure with access-denied or operation-aborted. -/
def x360_exits (o : X360Outcome) : Bool :=
  (o.ok && decide (o.Notification = 0)) ||
    (!o.ok && (decide (o.lastError = ERROR_ACCESS_DENIED) ||
      decide (o.lastError = ERROR_OPERATION_ABORTED)))

/-- The Xbox-360 request-notification request on the session's handle, with the serial the
request structure holds. -/
def x360_request (Client : VIGEM_CLIENT) (serial : Nat) : WorkerEvent :=
  WorkerEvent.DeviceIoControl Client.hBusDevice (Ioctl.XUSB_REQUEST_NOTIFICATION serial)

/-- The call due to a successful outcome: the stored callback, with the session, the target,
the decoded fields of the response (large motor, small motor, LED number) and the user
pointer of the registration. -/
def x360_call (Target : VIGEM_TARGET) (Client : VIGEM_CLIENT) (UserData : Nat)
    (o : X360Outcome) : WorkerEvent :=
  WorkerEvent.x360_callback o.Notification Client Target o.xrn.LargeMotor o.xrn.SmallMotor
    o.xrn.LedNumber UserData

/-- The calls the specification asks of the Xbox-360 worker: one for every successful
outcome before the first outcome at which it exits. -/
def x360_reference_callbacks (Target : VIGEM_TARGET) (Client : VIGEM_CLIENT) (UserData : Nat)
    (outcomes : List X360Outcome) : List WorkerEvent :=
  ((outcomes.takeWhile fun o => !x360_exits o).filter fun o => o.ok).map
    (x360_call Target Client UserData)

/-- Everything the specification asks of the Xbox-360 worker, in order.  `handled` are the
outcomes before the first one at which it exits.  Each of them ended a request, and is
followed by one call when it is a success and by nothing when it is a failure; then the
request is issued again.  The first request carries `serial`, each later one the serial the
driver left in the structure when the request before it ended. -/
def x360_reference_events (Target : VIGEM_TARGET) (Client : VIGEM_CLIENT) (UserData : Nat)
    (serial : Nat) (outcomes : List X360Outcome) : List WorkerEvent :=
  let handled := outcomes.takeWhile fun o => !x360_exits o
  let serials := handled.map fun o => o.xrn.SerialNo
  ((serial :: serials).zip handled).flatMap (fun p =>
      if p.2.ok then [x360_request Client p.1, x360_call Target Client UserData p.2]
      else [x360_request Client p.1]) ++
    [x360_request Client (serials.getLastD serial)]

/-- An outcome at which the DS4 worker exits. -/
def ds4_exits (o : DS4Outcome) : Bool :=
  (o.ok && decide (o.Notification = 0)) ||
    (!o.ok && (decide (o.lastError = ERROR_ACCESS_DENIED) ||
      decide (o.lastError = ERROR_OPERATION_ABORTED)))

/-- The DS4 request-notification request on the session's handle, with the serial the
request structure holds. -/
def ds4_request (Client : VIGEM_CLIENT) (serial : Nat) : WorkerEvent :=
  WorkerEvent.DeviceIoControl Client.hBusDevice (Ioctl.DS4_REQUEST_NOTIFICATION serial)

/-- The call due to a successful outcome: the stored callback, with the session, the target,
the decoded fields of the response (large motor, small motor, lightbar colour) and the user
pointer of the registration. -/
def ds4_call (Target : VIGEM_TARGET) (Client : VIGEM_CLIENT) (UserData : Nat)
    (o : DS4Outcome) : WorkerEvent :=
  WorkerEvent.ds4_callback o.Notification Client Target o.ds4rn.Report.LargeMotor
    o.ds4rn.Report.SmallMotor o.ds4rn.Report.LightbarColor UserData

/-- The calls the specification asks of the DS4 worker. -/
def ds4_reference_callbacks (Target : VIGEM_TARGET) (Client : VIGEM_CLIENT) (UserData : Nat)
    (outcomes : List DS4Outcome) : List WorkerEvent :=
  ((outcomes.takeWhile fun o => !ds4_exits o).filter fun o => o.ok).map
    (ds4_call Target Client UserData)

/-- Everything the specification asks of the DS4 worker, in order. -/
def ds4_reference_events (Target : VIGEM_TARGET) (Client : VIGEM_CLIENT) (UserData : Nat)
    (serial : Nat) (outcomes : List DS4Outcome) : List WorkerEvent :=
  let handled := outcomes.takeWhile fun o => !ds4_exits o
  let serials := handled.map fun o => o.ds4rn.SerialNo
  ((serial :: serials).zip handled).flatMap (fun p =>
      if p.2.ok then [ds4_request Client p.1, ds4_call Target Client UserData p.2]
      else [ds4_request Client p.1]) ++
    [ds4_request Client (serials.getLastD serial)]

/-! ## Concrete systems and states used to evaluate the code -/

/-- A completion that failed with the given error code. -/
def failed (e : DWORD) : Completion :=
  { ok := false, lastError := e, SerialNo := 0, Buffer := [] }

/-- A completion that succeeded, with the output structure as given. -/
def succeeded (serial : Nat) (buffer : DS4_OUTPUT_BUFFER) : Completion :=
  { ok := true, lastError := ERROR_SUCCESS, SerialNo := serial, Buffer := buffer }

def cfg0 : Config :=
  { VIGEM_TARGETS_MAX := 65535, VIGEM_COMMON_VERSION := 1 }

/-- One bus device is present and opens as handle `7`; the driver rejects every request with
a general failure. -/
def sysReject : System :=
  { classDevs := fun _ => [{ detail := true, createFile := 7 }]
    ioctl := fun _ _ _ => failed ERROR_GEN_FAILURE
    ioctlEx := fun _ _ _ _ => failed ERROR_GEN_FAILURE
    createEvent := fun _ => 9 }

/-- One bus device is present and opens as handle `7`; the driver completes every request
successfully. -/
def sysAccept : System :=
  { classDevs := fun _ => [{ detail := true, createFile := 7 }]
    ioctl := fun _ _ req =>
      match req with
      | Ioctl.DS4_AWAIT_OUTPUT_AVAILABLE serial => succeeded serial [1, 2, 3]
      | _ => succeeded 0 []
    ioctlEx := fun _ _ _ _ => succeeded 0 []
    createEvent := fun _ => 9 }

/-- A fresh session and no target, before any call. -/
def stFresh : State :=
  { vigem := some vigem_alloc, target := none, trace := [] }

/-- An open session (handle `7`) and a freshly allocated Xbox-360 target. -/
def stOpenX360 : State :=
  { vigem := some { hBusDevice := 7 }, target := some vigem_target_x360_alloc, trace := [] }

/-- The driver completes every request except wait-device-ready, which fails with a general
failure. -/
def sysWaitFails : System :=
  { sysAccept with
    ioctl := fun _ _ req =>
      match req with
      | Ioctl.WAIT_DEVICE_READY _ => failed ERROR_GEN_FAILURE
      | _ => succeeded 0 [] }

/-- A driver older than v1.17: wait-device-ready fails with invalid-parameter. -/
def sysLegacy : System :=
  { sysAccept with
    ioctl := fun _ _ req =>
      match req with
      | Ioctl.WAIT_DEVICE_READY _ => failed ERROR_INVALID_PARAMETER
      | _ => succeeded 0 [] }

/-- Slots 1 and 2 are taken: plugin requests for them are rejected. -/
def sysSlot3 : System :=
  { sysAccept with
    ioctl := fun _ _ req =>
      match req with
      | Ioctl.PLUGIN_TARGET serial _ _ _ =>
        if serial < 3 then failed ERROR_GEN_FAILURE else succeeded 0 []
      | _ => succeeded 0 [] }

/-- The shared DS4 output queue hands out a report that belongs to the target with serial 2,
whoever asks, and completes the request successfully. -/
def sysOtherSerial : System :=
  { sysAccept with
    ioctl := fun _ _ _ => succeeded 2 [170, 187]
    ioctlEx := fun _ _ _ _ => succeeded 2 [170, 187] }

/-- An open session (handle `7`) and a DS4 target plugged in as serial 1. -/
def stDs4Connected : State :=
  { vigem := some { hBusDevice := 7 }
    target := some { vigem_target_ds4_alloc with
      SerialNo := 1, State := VIGEM_TARGET_CONNECTED }
    trace := [] }

/-- An open session (handle `7`) and a target that was plugged in as serial 1 and removed. -/
def stDisconnected (target : VIGEM_TARGET) : State :=
  { vigem := some { hBusDevice := 7 }
    target := some { target with SerialNo := 1, State := VIGEM_TARGET_DISCONNECTED }
    trace := [] }

/-- An open session (handle `7`) and an Xbox-360 target plugged in as serial 1. -/
def stX360Connected : State :=
  { vigem := some { hBusDevice := 7 }
    target := some { vigem_target_x360_alloc with
      SerialNo := 1, State := VIGEM_TARGET_CONNECTED }
    trace := [] }

/-- A driver older than v1.17: the extended DS4 submit fails with invalid-parameter. -/
def sysNoExtended : System :=
  { sysAccept with
    ioctl := fun _ _ req =>
      match req with
      | Ioctl.DS4_SUBMIT_REPORT_EX _ _ => failed ERROR_INVALID_PARAMETER
      | _ => succeeded 0 [] }

/-- The completion of the await-output request issued with trace `tr` and awaited for
`milliseconds`. -/
def awaitCompletionEx (sys : System) (vigem : VIGEM_CLIENT) (target : VIGEM_TARGET)
    (tr : List Event) (milliseconds : DWORD) : Completion :=
  sys.ioctlEx tr vigem.hBusDevice (Ioctl.DS4_AWAIT_OUTPUT_AVAILABLE target.SerialNo)
    milliseconds

/-- The await-output request for the target, as it appears in the trace. -/
def awaitEvent (vigem : VIGEM_CLIENT) (target : VIGEM_TARGET) : Event :=
  Event.DeviceIoControl vigem.hBusDevice (Ioctl.DS4_AWAIT_OUTPUT_AVAILABLE target.SerialNo)

/-- No output report arrives: every bounded wait ends with wait-timeout. -/
def sysTimeout : System :=
  { sysAccept with ioctlEx := fun _ _ _ _ => failed WAIT_TIMEOUT }

/-- An Xbox-360 target plugged in as serial 1, as a worker thread is given it. -/
def workerTarget : VIGEM_TARGET :=
  { vigem_target_x360_alloc with SerialNo := 1, State := VIGEM_TARGET_CONNECTED }

/-- A run of outcomes: a rumble report while callback `100` is stored, a general failure, a
report seen after the callback was cleared, and one more report. -/
def workerOutcomes : List X360Outcome :=
  [{ ok := true, lastError := 0, Notification := 100
     xrn := { SerialNo := 1, LargeMotor := 192, SmallMotor := 64, LedNumber := 1 } },
   { ok := false, lastError := ERROR_GEN_FAILURE, Notification := 100
     xrn := { SerialNo := 1, LargeMotor := 192, SmallMotor := 64, LedNumber := 1 } },
   { ok := true, lastError := 0, Notification := 0
     xrn := { SerialNo := 1, LargeMotor := 10, SmallMotor := 20, LedNumber := 2 } },
   { ok := true, lastError := 0, Notification := 100
     xrn := { SerialNo := 1, LargeMotor := 30, SmallMotor := 40, LedNumber := 3 } }]

/-! ## Session: theorems -/

theorem vigem_connect_loop_none_open (cfg : Config) (sys : System) (devs : List Device) :
    ∀ (i : Nat) (e : VIGEM_ERROR) (v : VIGEM_CLIENT) (tr : List Event),
      (vigem_connect_loop cfg sys devs i e v tr).1 = VIGEM_ERROR.NONE →
      e ≠ VIGEM_ERROR.NONE →
      (vigem_connect_loop cfg sys devs i e v tr).2.1.hBusDevice ≠ INVALID_HANDLE_VALUE := by
  induction devs with
  | nil =>
    intro i e v tr h he
    simp only [vigem_connect_loop] at h
    exact absurd h he
  | cons d devs ih =>
    intro i e v tr h he
    simp only [vigem_connect_loop] at h ⊢
    split
    · rename_i hd
      rw [if_pos hd] at h
      exact ih _ _ _ _ h (by decide)
    · rename_i hd
      rw [if_neg hd] at h
      split
      · rename_i ho
        rw [if_pos ho] at h
        exact ih _ _ _ _ h (by decide)
      · rename_i ho
        rw [if_neg ho] at h
        split
        · exact ho
        · rename_i hc
          rw [if_neg hc] at h
          exact ih _ _ _ _ h (by decide)

/-- C1, evaluated on the code: with one bus device that opens (handle 7) and a driver that
fails the check-version request, `vigem_connect` on a fresh session returns
bus-version-mismatch while handle 7 stays stored in the session and is never closed: the
session is neither open nor unopened in the sense of the claim. -/
theorem vigem_connect_version_mismatch_keeps_handle :
    (vigem_connect cfg0 sysReject stFresh).1 = VIGEM_ERROR.BUS_VERSION_MISMATCH ∧
    (vigem_connect cfg0 sysReject stFresh).2.vigem = some { hBusDevice := 7 } ∧
    (7 : HANDLE) ≠ INVALID_HANDLE_VALUE ∧
    (vigem_connect cfg0 sysReject stFresh).2.trace =
      [Event.SetupDiGetClassDevs, Event.CreateFile 0,
       Event.DeviceIoControl 7 (Ioctl.CHECK_VERSION 1)] := by
  refine ⟨rfl, rfl, by decide, rfl⟩

/-- C9: when `vigem_connect` returned none, the session is open and a second
`vigem_connect` returns bus-already-connected and changes nothing (no enumeration, same
handle).  On any session `t`: if `t` is open, `vigem_disconnect` closes exactly its handle and
leaves the sentinel; if `t` is null or unopened, `vigem_disconnect` changes nothing; and
applying it twice is the same as applying it once. -/
theorem vigem_connect_disconnect_idempotent (cfg : Config) (sys : System) (s s1 t : State)
    (h : vigem_connect cfg sys s = (VIGEM_ERROR.NONE, s1)) :
    vigem_connect cfg sys s1 = (VIGEM_ERROR.BUS_ALREADY_CONNECTED, s1) ∧
    (∃ hBus, s1.vigem = some { hBusDevice := hBus } ∧ hBus ≠ INVALID_HANDLE_VALUE) ∧
    (∀ hBus, t.vigem = some { hBusDevice := hBus } → hBus ≠ INVALID_HANDLE_VALUE →
      vigem_disconnect t =
        { t with vigem := some { hBusDevice := INVALID_HANDLE_VALUE }
                 trace := t.trace ++ [Event.CloseHandle hBus] }) ∧
    (t.vigem = none ∨ t.vigem = some { hBusDevice := INVALID_HANDLE_VALUE } →
      vigem_disconnect t = t) ∧
    vigem_disconnect (vigem_disconnect t) = vigem_disconnect t := by
  have hopen : ∃ hBus, s1.vigem = some { hBusDevice := hBus } ∧
      hBus ≠ INVALID_HANDLE_VALUE := by
    unfold vigem_connect at h
    cases hv : s.vigem with
    | none => simp [hv] at h
    | some v =>
      simp only [hv] at h
      by_cases ho : v.hBusDevice ≠ INVALID_HANDLE_VALUE
      · simp [ho] at h
      · rw [if_neg ho] at h
        simp only [Prod.mk.injEq] at h
        obtain ⟨h1, h2⟩ := h
        have := vigem_connect_loop_none_open cfg sys _ _ _ _ _ h1 (by decide)
        refine ⟨_, ?_, this⟩
        rw [← h2]
  refine ⟨?_, hopen, ?_, ?_, ?_⟩
  · obtain ⟨hBus, hs1, hne⟩ := hopen
    simp [vigem_connect, hs1, hne]
  · intro hBus ht hne
    simp [vigem_disconnect, ht, hne]
  · rintro (ht | ht) <;> simp [vigem_disconnect, ht]
  · cases ht : t.vigem with
    | none => simp [vigem_disconnect, ht]
    | some v =>
      by_cases ho : v.hBusDevice = INVALID_HANDLE_VALUE
      · simp [vigem_disconnect, ht, ho]
      · simp [vigem_disconnect, ht, ho]

theorem vigem_connect_disconnect_idempotent_witness :
    vigem_connect cfg0 sysAccept stFresh =
      (VIGEM_ERROR.NONE,
        { vigem := some { hBusDevice := 7 }, target := none
          trace := [Event.SetupDiGetClassDevs, Event.CreateFile 0,
            Event.DeviceIoControl 7 (Ioctl.CHECK_VERSION 1)] }) ∧
    vigem_connect cfg0 sysAccept
        { vigem := some { hBusDevice := 7 }, target := none
          trace := [Event.SetupDiGetClassDevs, Event.CreateFile 0,
            Event.DeviceIoControl 7 (Ioctl.CHECK_VERSION 1)] } =
      (VIGEM_ERROR.BUS_ALREADY_CONNECTED,
        { vigem := some { hBusDevice := 7 }, target := none
          trace := [Event.SetupDiGetClassDevs, Event.CreateFile 0,
            Event.DeviceIoControl 7 (Ioctl.CHECK_VERSION 1)] }) :=
  ⟨rfl, (vigem_connect_disconnect_idempotent cfg0 sysAccept stFresh _ stFresh rfl).1⟩

/-! ## Plug and unplug: the slot search -/

theorem find_range'_some (p : Nat → Bool) (n : Nat) :
    ∀ (s k : Nat), (List.range' s n).find? p = some k →
      s ≤ k ∧ k < s + n ∧ p k = true ∧ ∀ j, s ≤ j → j < k → p j = false := by
  induction n with
  | zero => intro s k h; simp at h
  | succ n ih =>
    intro s k h
    rw [List.range'_succ, List.find?_cons] at h
    cases hp : p s with
    | true =>
      rw [hp] at h
      simp only [Option.some.injEq] at h
      subst h
      exact ⟨le_refl _, by omega, hp, fun j h1 h2 => absurd h1 (by omega)⟩
    | false =>
      rw [hp] at h
      obtain ⟨h1, h2, h3, h4⟩ := ih (s + 1) k h
      refine ⟨by omega, by omega, h3, fun j hj1 hj2 => ?_⟩
      by_cases hjs : j = s
      · rw [hjs]; exact hp
      · exact h4 j (by omega) hj2

theorem find_range'_none (p : Nat → Bool) (n s : Nat)
    (h : (List.range' s n).find? p = none) (j : Nat) (h1 : s ≤ j) (h2 : j < s + n) :
    p j = false := by
  rw [List.find?_eq_none] at h
  have := h j (List.mem_range'_1.mpr ⟨h1, h2⟩)
  simpa using this

theorem pluginEvents_succ (vigem : VIGEM_CLIENT) (target : VIGEM_TARGET) (m : Nat) :
    pluginEvents vigem target 1 m ++
        [Event.DeviceIoControl vigem.hBusDevice (pluginRequest target (m + 1))] =
      pluginEvents vigem target 1 (m + 1) := by
  simp [pluginEvents, List.range'_1_concat, Nat.add_comm]

/-- As long as the driver rejects the plugin requests, the loop moves on to the next
serial. -/
theorem vigem_target_add_loop_skip (cfg : Config) (sys : System) (vigem : VIGEM_CLIENT)
    (target : VIGEM_TARGET) (tr : List Event) (n : Nat) :
    ∀ m : Nat, m + n ≤ cfg.VIGEM_TARGETS_MAX →
      (∀ j, m < j → j ≤ m + n → pluginAccepted sys vigem target tr j = false) →
      vigem_target_add_loop cfg sys vigem { target with SerialNo := m + 1 }
          (tr ++ pluginEvents vigem target 1 m) =
        vigem_target_add_loop cfg sys vigem { target with SerialNo := m + n + 1 }
          (tr ++ pluginEvents vigem target 1 (m + n)) := by
  induction n with
  | zero => intro m _ _; rfl
  | succ n ih =>
    intro m hm hrej
    have hacc := hrej (m + 1) (by omega) (by omega)
    simp only [pluginAccepted, Nat.add_sub_cancel, pluginRequest] at hacc
    rw [vigem_target_add_loop]
    simp only
    rw [if_pos (by omega : m + 1 ≤ cfg.VIGEM_TARGETS_MAX)]
    rw [hacc]
    simp only [Bool.false_eq_true, if_false]
    have := ih (m + 1) (by omega) (fun j h1 h2 => hrej j (by omega) (by omega))
    rw [List.append_assoc]
    have e := pluginEvents_succ vigem target m
    simp only [pluginRequest] at e
    have e2 : m + 1 + n = m + (n + 1) := by omega
    rw [e2] at this
    rw [e, this]

/-- What the loop does when serial `k` is the first one the driver accepts. -/
theorem vigem_target_add_loop_found (cfg : Config) (sys : System) (vigem : VIGEM_CLIENT)
    (target : VIGEM_TARGET) (tr : List Event) (k : Nat)
    (hk : firstAccepted cfg sys vigem target tr = some k) :
    vigem_target_add_loop cfg sys vigem { target with SerialNo := 1 } tr =
      if (waitCompletion sys vigem target tr k).ok then
        (VIGEM_ERROR.NONE,
          { vigem := some vigem
            target := some { target with SerialNo := k, State := VIGEM_TARGET_CONNECTED }
            trace := tr ++ pluginEvents vigem target 1 k ++ [waitEvent vigem k] })
      else if (waitCompletion sys vigem target tr k).lastError = ERROR_INVALID_PARAMETER then
        (VIGEM_ERROR.NONE,
          { vigem := some vigem
            target := some { target with SerialNo := k, State := VIGEM_TARGET_CONNECTED
                                         IsWaitReadyUnsupported := true }
            trace := tr ++ pluginEvents vigem target 1 k ++ [waitEvent vigem k] })
      else
        vigem_target_remove sys
          { vigem := some vigem
            target := some { target with SerialNo := k }
            trace := tr ++ pluginEvents vigem target 1 k ++ [waitEvent vigem k] } := by
  obtain ⟨h1, h2, h3, h4⟩ := find_range'_some _ _ _ _ hk
  obtain ⟨n, rfl⟩ : ∃ n, k = n + 1 := ⟨k - 1, by omega⟩
  have hskip := vigem_target_add_loop_skip cfg sys vigem target tr n 0 (by omega)
    (fun j hj1 hj2 => h4 j (by omega) (by omega))
  simp only [Nat.zero_add] at hskip
  have e0 : tr ++ pluginEvents vigem target 1 0 = tr := by simp [pluginEvents]
  rw [e0] at hskip
  rw [hskip, vigem_target_add_loop]
  simp only [pluginAccepted, Nat.add_sub_cancel, pluginRequest] at h3
  simp only
  rw [if_pos (by omega : n + 1 ≤ cfg.VIGEM_TARGETS_MAX), h3]
  have e := pluginEvents_succ vigem target n
  simp only [pluginRequest] at e
  rw [List.append_assoc tr, e]
  simp only [if_true, waitCompletion, waitEvent]

/-- What the loop does when the driver accepts no serial. -/
theorem vigem_target_add_loop_exhausted (cfg : Config) (sys : System) (vigem : VIGEM_CLIENT)
    (target : VIGEM_TARGET) (tr : List Event)
    (hk : firstAccepted cfg sys vigem target tr = none) :
    vigem_target_add_loop cfg sys vigem { target with SerialNo := 1 } tr =
      (VIGEM_ERROR.NO_FREE_SLOT,
        { vigem := some vigem
          target := some { target with SerialNo := cfg.VIGEM_TARGETS_MAX + 1 }
          trace := tr ++ pluginEvents vigem target 1 cfg.VIGEM_TARGETS_MAX }) := by
  have hskip := vigem_target_add_loop_skip cfg sys vigem target tr cfg.VIGEM_TARGETS_MAX 0
    (by omega) (fun j hj1 hj2 => find_range'_none _ _ _ hk j (by omega) (by omega))
  simp only [Nat.zero_add] at hskip
  have e0 : tr ++ pluginEvents vigem target 1 0 = tr := by simp [pluginEvents]
  rw [e0] at hskip
  rw [hskip, vigem_target_add_loop]
  simp

/-- When the wait-device-ready request after the accepted plugin request fails with an error
other than invalid-parameter, the `vigem_target_remove` called by the loop sees a target that
is not Connected, and returns before it builds an unplug request. -/
theorem vigem_target_add_loop_wait_failure (cfg : Config) (sys : System)
    (vigem : VIGEM_CLIENT) (target : VIGEM_TARGET) (tr : List Event) (k : Nat)
    (hopen : vigem.hBusDevice ≠ INVALID_HANDLE_VALUE)
    (hnew : target.State ≠ VIGEM_TARGET_NEW) (hcon : target.State ≠ VIGEM_TARGET_CONNECTED)
    (hk : firstAccepted cfg sys vigem target tr = some k)
    (hw : (waitCompletion sys vigem target tr k).ok = false)
    (he : (waitCompletion sys vigem target tr k).lastError ≠ ERROR_INVALID_PARAMETER) :
    vigem_target_add_loop cfg sys vigem { target with SerialNo := 1 } tr =
      (VIGEM_ERROR.TARGET_NOT_PLUGGED_IN,
        { vigem := some vigem
          target := some { target with SerialNo := k }
          trace := tr ++ pluginEvents vigem target 1 k ++ [waitEvent vigem k] }) := by
  rw [vigem_target_add_loop_found cfg sys vigem target tr k hk, hw]
  simp [he, vigem_target_remove, hopen, hnew, hcon]

/-- C2, evaluated on the code: session open, fresh Xbox-360 target, the driver accepts the
plugin request for serial 1 and fails the wait-device-ready request with a general failure.
`vigem_target_add` returns target-not-plugged-in, and the requests it issued are the plugin
and the wait request only: no unplug request for serial 1 reaches the driver. -/
theorem vigem_target_add_wait_failure_no_unplug :
    vigem_target_add cfg0 sysWaitFails stOpenX360 =
      (VIGEM_ERROR.TARGET_NOT_PLUGGED_IN,
        { vigem := some { hBusDevice := 7 }
          target := some { vigem_target_x360_alloc with SerialNo := 1 }
          trace := [Event.DeviceIoControl 7 (Ioctl.PLUGIN_TARGET 1 Xbox360Wired 0x045E 0x028E),
                    Event.DeviceIoControl 7 (Ioctl.WAIT_DEVICE_READY 1)] }) := by
  have h := vigem_target_add_loop_wait_failure cfg0 sysWaitFails { hBusDevice := 7 }
    vigem_target_x360_alloc [] 1 (by decide) (by decide) (by decide) rfl rfl (by decide)
  simp only [vigem_target_add, stOpenX360]
  rw [if_neg (by decide), if_neg (by decide), if_neg (by decide), h]
  rfl

/-- C5: session open, target Initialized or Disconnected, every wait-device-ready request
succeeds.  If `k` is the least serial in `1..VIGEM_TARGETS_MAX` whose plugin request the
driver accepts, `vigem_target_add` returns none, the target is Connected with index `k`, and
the requests issued are the plugin requests for serials `1..k` (with the target's type, VID
and PID) followed by the wait request for `k`.  If the driver accepts no serial, it returns
no-free-slot and the target is not attached. -/
theorem vigem_target_add_refines_reference (cfg : Config) (sys : System) (s : State)
    (vigem : VIGEM_CLIENT) (target : VIGEM_TARGET)
    (hv : s.vigem = some vigem) (ht : s.target = some target)
    (hopen : vigem.hBusDevice ≠ INVALID_HANDLE_VALUE)
    (hstate : target.State = VIGEM_TARGET_INITIALIZED ∨
      target.State = VIGEM_TARGET_DISCONNECTED)
    (hwait : ∀ tr h serial, (sys.ioctl tr h (Ioctl.WAIT_DEVICE_READY serial)).ok = true) :
    match firstAccepted cfg sys vigem target s.trace with
    | some k =>
      1 ≤ k ∧ k ≤ cfg.VIGEM_TARGETS_MAX ∧
      (vigem_target_add cfg sys s).1 = VIGEM_ERROR.NONE ∧
      (∃ t, (vigem_target_add cfg sys s).2.target = some t ∧
        t = { target with SerialNo := k, State := VIGEM_TARGET_CONNECTED } ∧
        t.State = VIGEM_TARGET_CONNECTED ∧ vigem_target_is_attached t = true ∧
        vigem_target_get_index t = k) ∧
      (vigem_target_add cfg sys s).2.trace =
        s.trace ++ pluginEvents vigem target 1 k ++ [waitEvent vigem k] ∧
      (vigem_target_add cfg sys s).2.vigem = s.vigem
    | none =>
      (vigem_target_add cfg sys s).1 = VIGEM_ERROR.NO_FREE_SLOT ∧
      (∃ t, (vigem_target_add cfg sys s).2.target = some t ∧
        vigem_target_is_attached t = false) ∧
      (vigem_target_add cfg sys s).2.vigem = s.vigem := by
  have hnew : target.State ≠ VIGEM_TARGET_NEW := by
    rcases hstate with h | h <;> rw [h] <;> decide
  have hcon : target.State ≠ VIGEM_TARGET_CONNECTED := by
    rcases hstate with h | h <;> rw [h] <;> decide
  have hadd : vigem_target_add cfg sys s =
      vigem_target_add_loop cfg sys vigem { target with SerialNo := 1 } s.trace := by
    simp [vigem_target_add, hv, ht, hopen, hnew, hcon]
  cases hk : firstAccepted cfg sys vigem target s.trace with
  | some k =>
    obtain ⟨h1, h2, -, -⟩ := find_range'_some _ _ _ _ hk
    have hw : (waitCompletion sys vigem target s.trace k).ok = true := hwait _ _ _
    rw [hadd, vigem_target_add_loop_found cfg sys vigem target s.trace k hk, hw,
      if_pos rfl]
    refine ⟨h1, by omega, rfl, ⟨_, rfl, rfl, rfl, ?_, rfl⟩, rfl, hv.symm⟩
    simp [vigem_target_is_attached]
  | none =>
    rw [hadd, vigem_target_add_loop_exhausted cfg sys vigem target s.trace hk]
    refine ⟨rfl, ⟨_, rfl, ?_⟩, hv.symm⟩
    simp [vigem_target_is_attached, hcon]

theorem vigem_target_add_refines_reference_witness :
    firstAccepted cfg0 sysSlot3 { hBusDevice := 7 } vigem_target_x360_alloc [] = some 3 ∧
    (vigem_target_add cfg0 sysSlot3 stOpenX360).1 = VIGEM_ERROR.NONE ∧
    (vigem_target_add cfg0 sysSlot3 stOpenX360).2.trace =
      [Event.DeviceIoControl 7 (Ioctl.PLUGIN_TARGET 1 Xbox360Wired 0x045E 0x028E),
       Event.DeviceIoControl 7 (Ioctl.PLUGIN_TARGET 2 Xbox360Wired 0x045E 0x028E),
       Event.DeviceIoControl 7 (Ioctl.PLUGIN_TARGET 3 Xbox360Wired 0x045E 0x028E),
       Event.DeviceIoControl 7 (Ioctl.WAIT_DEVICE_READY 3)] := by
  have h := vigem_target_add_refines_reference cfg0 sysSlot3 stOpenX360 { hBusDevice := 7 }
    vigem_target_x360_alloc rfl rfl (by decide) (Or.inl rfl) (fun _ _ _ => rfl)
  have hk : firstAccepted cfg0 sysSlot3 { hBusDevice := 7 } vigem_target_x360_alloc
      stOpenX360.trace = some 3 := rfl
  rw [hk] at h
  exact ⟨rfl, h.2.2.1, h.2.2.2.2.1⟩

/-- C6: `vigem_target_add` checks, in this order, null session (bus-invalid-handle), null
target (invalid-target), unopened session (bus-not-found), state New (target-uninitialized),
state Connected (already-connected); in each case the state it returns is the state it was
given: no request in the trace, no field of the session or the target changed. -/
theorem vigem_target_add_preconditions (cfg : Config) (sys : System) (s : State) :
    (s.vigem = none → vigem_target_add cfg sys s = (VIGEM_ERROR.BUS_INVALID_HANDLE, s)) ∧
    (s.vigem ≠ none → s.target = none →
      vigem_target_add cfg sys s = (VIGEM_ERROR.INVALID_TARGET, s)) ∧
    (∀ v t, s.vigem = some v → s.target = some t →
      (v.hBusDevice = INVALID_HANDLE_VALUE →
        vigem_target_add cfg sys s = (VIGEM_ERROR.BUS_NOT_FOUND, s)) ∧
      (v.hBusDevice ≠ INVALID_HANDLE_VALUE → t.State = VIGEM_TARGET_NEW →
        vigem_target_add cfg sys s = (VIGEM_ERROR.TARGET_UNINITIALIZED, s)) ∧
      (v.hBusDevice ≠ INVALID_HANDLE_VALUE → t.State = VIGEM_TARGET_CONNECTED →
        vigem_target_add cfg sys s = (VIGEM_ERROR.ALREADY_CONNECTED, s))) := by
  refine ⟨fun h => ?_, fun h1 h2 => ?_, fun v t hv ht => ⟨fun h => ?_, fun h1 h2 => ?_,
    fun h1 h2 => ?_⟩⟩
  · simp [vigem_target_add, h]
  · cases hv : s.vigem with
    | none => exact absurd hv h1
    | some v => simp [vigem_target_add, hv, h2]
  · simp [vigem_target_add, hv, ht, h]
  · simp [vigem_target_add, hv, ht, h1, h2]
  · simp [vigem_target_add, hv, ht, h1, h2]

theorem vigem_target_add_preconditions_witness :
    vigem_target_add cfg0 sysAccept
        { vigem := some { hBusDevice := 7 }
          target := some { vigem_target_x360_alloc with
            SerialNo := 1, State := VIGEM_TARGET_CONNECTED }
          trace := [] } =
      (VIGEM_ERROR.ALREADY_CONNECTED,
        { vigem := some { hBusDevice := 7 }
          target := some { vigem_target_x360_alloc with
            SerialNo := 1, State := VIGEM_TARGET_CONNECTED }
          trace := [] }) :=
  ((vigem_target_add_preconditions cfg0 sysAccept _).2.2 _ _ rfl rfl).2.2 (by decide) rfl

/-- C7: session open, target neither New nor Connected, `k` the first serial whose plugin
request succeeds, and the wait-device-ready request that follows fails with
invalid-parameter.  Then `vigem_target_add` returns none, the target is Connected with the
legacy-wait flag set, and `vigem_target_is_waitable_add_supported` reports unsupported.  On
every target object `t` the probe is the negation of the flag, and it reports supported on
freshly allocated targets. -/
theorem vigem_target_add_legacy_driver (cfg : Config) (sys : System) (s : State)
    (vigem : VIGEM_CLIENT) (target t : VIGEM_TARGET) (k : Nat)
    (hv : s.vigem = some vigem) (ht : s.target = some target)
    (hopen : vigem.hBusDevice ≠ INVALID_HANDLE_VALUE)
    (hnew : target.State ≠ VIGEM_TARGET_NEW) (hcon : target.State ≠ VIGEM_TARGET_CONNECTED)
    (hk : firstAccepted cfg sys vigem target s.trace = some k)
    (hw : (waitCompletion sys vigem target s.trace k).ok = false)
    (he : (waitCompletion sys vigem target s.trace k).lastError = ERROR_INVALID_PARAMETER) :
    vigem_target_add cfg sys s =
      (VIGEM_ERROR.NONE,
        { s with
          target := some { target with SerialNo := k, State := VIGEM_TARGET_CONNECTED
                                       IsWaitReadyUnsupported := true }
          trace := s.trace ++ pluginEvents vigem target 1 k ++ [waitEvent vigem k] }) ∧
    vigem_target_is_waitable_add_supported (vigem_target_add cfg sys s).2.target = false ∧
    vigem_target_is_waitable_add_supported (some t) = !t.IsWaitReadyUnsupported ∧
    vigem_target_is_waitable_add_supported (some vigem_target_x360_alloc) = true ∧
    vigem_target_is_waitable_add_supported (some vigem_target_ds4_alloc) = true := by
  have hadd : vigem_target_add cfg sys s =
      vigem_target_add_loop cfg sys vigem { target with SerialNo := 1 } s.trace := by
    simp [vigem_target_add, hv, ht, hopen, hnew, hcon]
  rw [hadd, vigem_target_add_loop_found cfg sys vigem target s.trace k hk, hw,
    if_neg (by decide), if_pos he]
  exact ⟨by rw [← hv], rfl, rfl, rfl, rfl⟩

theorem vigem_target_add_legacy_driver_witness :
    vigem_target_add cfg0 sysLegacy stOpenX360 =
      (VIGEM_ERROR.NONE,
        { vigem := some { hBusDevice := 7 }
          target := some { vigem_target_x360_alloc with
            SerialNo := 1, State := VIGEM_TARGET_CONNECTED, IsWaitReadyUnsupported := true }
          trace := [Event.DeviceIoControl 7 (Ioctl.PLUGIN_TARGET 1 Xbox360Wired 0x045E 0x028E),
                    Event.DeviceIoControl 7 (Ioctl.WAIT_DEVICE_READY 1)] }) ∧
    vigem_target_is_waitable_add_supported
      (vigem_target_add cfg0 sysLegacy stOpenX360).2.target = false :=
  have h := vigem_target_add_legacy_driver cfg0 sysLegacy stOpenX360 { hBusDevice := 7 }
    vigem_target_x360_alloc vigem_target_x360_alloc 1 rfl rfl (by decide) (by decide)
    (by decide) rfl rfl rfl
  ⟨h.1, h.2.1⟩

/-- C8: session open.  On a Connected target `vigem_target_remove` issues one unplug request
with the target's serial; when the driver accepts it, the call returns none and only the
state changes, to Disconnected (not attached; serial, type, VID and PID as before); when the
driver rejects it, the call returns removal-failed and the target is unchanged.  On a target
that is neither New nor Connected it returns target-not-plugged-in and issues nothing. -/
theorem vigem_target_remove_spec (sys : System) (s : State) (vigem : VIGEM_CLIENT)
    (target : VIGEM_TARGET)
    (hv : s.vigem = some vigem) (ht : s.target = some target)
    (hopen : vigem.hBusDevice ≠ INVALID_HANDLE_VALUE) :
    (target.State = VIGEM_TARGET_CONNECTED →
      (sys.ioctl s.trace vigem.hBusDevice (Ioctl.UNPLUG_TARGET target.SerialNo)).ok = true →
      vigem_target_remove sys s =
        (VIGEM_ERROR.NONE,
          { s with
            target := some { target with State := VIGEM_TARGET_DISCONNECTED }
            trace := s.trace ++ [Event.DeviceIoControl vigem.hBusDevice
              (Ioctl.UNPLUG_TARGET target.SerialNo)] }) ∧
      vigem_target_is_attached { target with State := VIGEM_TARGET_DISCONNECTED } = false) ∧
    (target.State = VIGEM_TARGET_CONNECTED →
      (sys.ioctl s.trace vigem.hBusDevice (Ioctl.UNPLUG_TARGET target.SerialNo)).ok = false →
      vigem_target_remove sys s =
        (VIGEM_ERROR.REMOVAL_FAILED,
          { s with
            trace := s.trace ++ [Event.DeviceIoControl vigem.hBusDevice
              (Ioctl.UNPLUG_TARGET target.SerialNo)] }) ∧
      vigem_target_is_attached target = true) ∧
    (target.State ≠ VIGEM_TARGET_NEW → target.State ≠ VIGEM_TARGET_CONNECTED →
      vigem_target_remove sys s = (VIGEM_ERROR.TARGET_NOT_PLUGGED_IN, s)) := by
  refine ⟨fun hc hok => ⟨?_, ?_⟩, fun hc hok => ⟨?_, ?_⟩, fun h1 h2 => ?_⟩
  · simp [vigem_target_remove, hv, ht, hopen, hc, hok]
  · simp [vigem_target_is_attached]
  · simp [vigem_target_remove, hv, ht, hopen, hc, hok]
  · simp [vigem_target_is_attached, hc]
  · simp [vigem_target_remove, hv, ht, hopen, h1, h2]

theorem vigem_target_remove_spec_witness :
    vigem_target_remove sysAccept
        { vigem := some { hBusDevice := 7 }
          target := some { vigem_target_x360_alloc with
            SerialNo := 1, State := VIGEM_TARGET_CONNECTED }
          trace := [] } =
      (VIGEM_ERROR.NONE,
        { vigem := some { hBusDevice := 7 }
          target := some { vigem_target_x360_alloc with
            SerialNo := 1, State := VIGEM_TARGET_DISCONNECTED }
          trace := [Event.DeviceIoControl 7 (Ioctl.UNPLUG_TARGET 1)] }) :=
  ((vigem_target_remove_spec sysAccept _ { hBusDevice := 7 }
    { vigem_target_x360_alloc with SerialNo := 1, State := VIGEM_TARGET_CONNECTED }
    rfl rfl (by decide)).1 rfl rfl).1

/-! ## Awaiting DS4 output reports: theorems -/

/-- C4, evaluated on the code: the target has serial 1 and the driver completes the
await-output request successfully with a response that carries serial 2.  Both
`vigem_target_ds4_await_output_report` and its timeout variant return none after this single
request and hand the bytes of that response to the caller: the serial is compared only on the
path where `GetOverlappedResult` reports a failure. -/
theorem vigem_target_ds4_await_output_report_copies_other_serial :
    (sysOtherSerial.ioctl [] 7 (Ioctl.DS4_AWAIT_OUTPUT_AVAILABLE 1)).SerialNo = 2 ∧
    vigem_target_ds4_await_output_report sysOtherSerial 1 stDs4Connected (some [0, 0]) =
      some (VIGEM_ERROR.NONE, some [170, 187],
        { stDs4Connected with
          trace := [Event.DeviceIoControl 7 (Ioctl.DS4_AWAIT_OUTPUT_AVAILABLE 1)] }) ∧
    vigem_target_ds4_await_output_report_timeout sysOtherSerial 1 stDs4Connected 50
        (some [0, 0]) =
      some (VIGEM_ERROR.NONE, some [170, 187],
        { stDs4Connected with
          trace := [Event.DeviceIoControl 7 (Ioctl.DS4_AWAIT_OUTPUT_AVAILABLE 1)] }) :=
  ⟨rfl, rfl, rfl⟩

/-! ## Notifications: theorems -/

/-- C10 fails as stated: on a Disconnected target (plugged in as serial 1, then removed) both
registration functions return none, store the callback and start a worker. -/
theorem register_notification_on_disconnected :
    vigem_target_x360_register_notification sysAccept
        (stDisconnected vigem_target_x360_alloc) 100 5 =
      (VIGEM_ERROR.NONE,
        { vigem := some { hBusDevice := 7 }
          target := some { vigem_target_x360_alloc with
            SerialNo := 1, State := VIGEM_TARGET_DISCONNECTED, Notification := 100
            NotificationUserData := 5, CancelNotificationThreadEvent := 9 }
          trace := [Event.CreateEvent, Event.thread Worker.x360_notification 5] }) ∧
    vigem_target_ds4_register_notification sysAccept
        (stDisconnected vigem_target_ds4_alloc) 100 5 =
      (VIGEM_ERROR.NONE,
        { vigem := some { hBusDevice := 7 }
          target := some { vigem_target_ds4_alloc with
            SerialNo := 1, State := VIGEM_TARGET_DISCONNECTED, Notification := 100
            NotificationUserData := 5, CancelNotificationThreadEvent := 9 }
          trace := [Event.CreateEvent, Event.thread Worker.ds4_notification 5] }) :=
  ⟨rfl, rfl⟩

/-- The state a target is in when it was plugged in as serial 1 and removed is reached by the
library itself: allocate, add, remove, against a driver that accepts every request. -/
theorem stDisconnected_reached :
    (vigem_target_remove sysAccept (vigem_target_add cfg0 sysAccept stOpenX360).2).2.target =
      (stDisconnected vigem_target_x360_alloc).target := by
  have h := vigem_target_add_loop_found cfg0 sysAccept { hBusDevice := 7 }
    vigem_target_x360_alloc [] 1 rfl
  simp only [vigem_target_add, stOpenX360]
  rw [if_neg (by decide), if_neg (by decide), if_neg (by decide), h]
  rfl

/-- C10 as the code has it, for `register` either of the two registration functions and `w`
the worker it starts: the call returns none exactly when the session is open, the serial is
non-zero, and the callback is non-null and not the one already stored (the state of the target
is not read); then the callback and user pointer are stored, state and serial stay as they
were, and the last event is the start of the worker.  When it returns an error nothing
changes, no callback is stored and no worker started; on a target with serial 0 (as every
freshly allocated target has) the error is invalid-target. -/
theorem register_notification_guard (sys : System) (s : State) (notification userData : Nat)
    (register : System → State → Nat → Nat → VIGEM_ERROR × State) (w : Worker)
    (hreg : (register = vigem_target_x360_register_notification ∧
        w = Worker.x360_notification) ∨
      (register = vigem_target_ds4_register_notification ∧ w = Worker.ds4_notification)) :
    ((register sys s notification userData).1 = VIGEM_ERROR.NONE ↔
      ∃ v t, s.vigem = some v ∧ s.target = some t ∧ v.hBusDevice ≠ INVALID_HANDLE_VALUE ∧
        t.SerialNo ≠ 0 ∧ notification ≠ 0 ∧ t.Notification ≠ notification) ∧
    ((register sys s notification userData).1 = VIGEM_ERROR.NONE →
      ∃ t t1, s.target = some t ∧ (register sys s notification userData).2.target = some t1 ∧
        t1.Notification = notification ∧ t1.NotificationUserData = userData ∧
        t1.State = t.State ∧ t1.SerialNo = t.SerialNo ∧
        (register sys s notification userData).2.trace.getLast? =
          some (Event.thread w userData)) ∧
    ((register sys s notification userData).1 ≠ VIGEM_ERROR.NONE →
      (register sys s notification userData).2 = s) ∧
    (∀ v t, s.vigem = some v → s.target = some t → v.hBusDevice ≠ INVALID_HANDLE_VALUE →
      t.SerialNo = 0 →
      register sys s notification userData = (VIGEM_ERROR.INVALID_TARGET, s)) := by
  rcases hreg with ⟨rfl, rfl⟩ | ⟨rfl, rfl⟩
  · cases hv : s.vigem with
    | none => simp [vigem_target_x360_register_notification, hv]
    | some v =>
      cases ht : s.target with
      | none => simp [vigem_target_x360_register_notification, hv, ht]
      | some t =>
        by_cases ho : v.hBusDevice = INVALID_HANDLE_VALUE
        · simp [vigem_target_x360_register_notification, hv, ht, ho]
        · by_cases h0 : t.SerialNo = 0
          · simp [vigem_target_x360_register_notification, hv, ht, ho, h0]
          · by_cases hn : notification = 0
            · simp [vigem_target_x360_register_notification, hv, ht, ho, h0, hn]
            · by_cases he : t.Notification = notification
              · simp [vigem_target_x360_register_notification, hv, ht, ho, h0, hn, he]
              · by_cases hc : t.CancelNotificationThreadEvent = 0
                · simp [vigem_target_x360_register_notification, hv, ht, ho, h0, hn, he, hc]
                · simp [vigem_target_x360_register_notification, hv, ht, ho, h0, hn, he, hc]
  · cases hv : s.vigem with
    | none => simp [vigem_target_ds4_register_notification, hv]
    | some v =>
      cases ht : s.target with
      | none => simp [vigem_target_ds4_register_notification, hv, ht]
      | some t =>
        by_cases ho : v.hBusDevice = INVALID_HANDLE_VALUE
        · simp [vigem_target_ds4_register_notification, hv, ht, ho]
        · by_cases h0 : t.SerialNo = 0
          · simp [vigem_target_ds4_register_notification, hv, ht, ho, h0]
          · by_cases hn : notification = 0
            · simp [vigem_target_ds4_register_notification, hv, ht, ho, h0, hn]
            · by_cases he : t.Notification = notification
              · simp [vigem_target_ds4_register_notification, hv, ht, ho, h0, hn, he]
              · by_cases hc : t.CancelNotificationThreadEvent = 0
                · simp [vigem_target_ds4_register_notification, hv, ht, ho, h0, hn, he, hc]
                · simp [vigem_target_ds4_register_notification, hv, ht, ho, h0, hn, he, hc]

theorem register_notification_guard_witness :
    vigem_target_ds4_register_notification sysAccept stDs4Connected 100 5 =
      (VIGEM_ERROR.NONE,
        { vigem := some { hBusDevice := 7 }
          target := some { vigem_target_ds4_alloc with
            SerialNo := 1, State := VIGEM_TARGET_CONNECTED, Notification := 100
            NotificationUserData := 5, CancelNotificationThreadEvent := 9 }
          trace := [Event.CreateEvent, Event.thread Worker.ds4_notification 5] }) ∧
    ((vigem_target_ds4_register_notification sysAccept stDs4Connected 100 5).1 =
        VIGEM_ERROR.NONE ↔
      ∃ v t, stDs4Connected.vigem = some v ∧ stDs4Connected.target = some t ∧
        v.hBusDevice ≠ INVALID_HANDLE_VALUE ∧ t.SerialNo ≠ 0 ∧ (100 : Nat) ≠ 0 ∧
        t.Notification ≠ 100) :=
  ⟨rfl, (register_notification_guard sysAccept stDs4Connected 100 5
    vigem_target_ds4_register_notification Worker.ds4_notification
    (Or.inr ⟨rfl, rfl⟩)).1⟩

/-! ## The serial number and the state of a target -/

theorem vigem_target_remove_target (sys : System) (s : State) (t : VIGEM_TARGET)
    (ht : s.target = some t) :
    ∃ t1, (vigem_target_remove sys s).2.target = some t1 ∧ t1.SerialNo = t.SerialNo ∧
      (t1.State = t.State ∨
        (t.State = VIGEM_TARGET_CONNECTED ∧ t1.State = VIGEM_TARGET_DISCONNECTED)) := by
  unfold vigem_target_remove
  cases hv : s.vigem with
  | none => exact ⟨t, by simp [ht], rfl, Or.inl rfl⟩
  | some v =>
    simp only [ht]
    split_ifs with h1 h2 h3 h4
    · exact ⟨t, ht, rfl, Or.inl rfl⟩
    · exact ⟨t, ht, rfl, Or.inl rfl⟩
    · exact ⟨t, ht, rfl, Or.inl rfl⟩
    · exact ⟨_, rfl, rfl, Or.inr ⟨not_not.mp h3, rfl⟩⟩
    · exact ⟨t, rfl, rfl, Or.inl rfl⟩

theorem vigem_target_add_target (cfg : Config) (sys : System) (s : State) (t : VIGEM_TARGET)
    (ht : s.target = some t) :
    ∃ t1, (vigem_target_add cfg sys s).2.target = some t1 ∧ (t1 = t ∨ t1.SerialNo ≠ 0) := by
  unfold vigem_target_add
  cases hv : s.vigem with
  | none => exact ⟨t, by simp [ht], Or.inl rfl⟩
  | some v =>
    simp only [ht]
    split_ifs with h1 h2 h3
    · exact ⟨t, ht, Or.inl rfl⟩
    · exact ⟨t, ht, Or.inl rfl⟩
    · exact ⟨t, ht, Or.inl rfl⟩
    · cases hk : firstAccepted cfg sys v t s.trace with
      | none =>
        rw [vigem_target_add_loop_exhausted cfg sys v t s.trace hk]
        exact ⟨_, rfl, Or.inr (Nat.succ_ne_zero _)⟩
      | some k =>
        obtain ⟨hk1, -, -, -⟩ := find_range'_some _ _ _ _ hk
        rw [vigem_target_add_loop_found cfg sys v t s.trace k hk]
        split_ifs
        · exact ⟨_, rfl, Or.inr (by show k ≠ 0; omega)⟩
        · exact ⟨_, rfl, Or.inr (by show k ≠ 0; omega)⟩
        · obtain ⟨t1, e1, e2, -⟩ := vigem_target_remove_target sys
            { vigem := some v, target := some { t with SerialNo := k }
              trace := s.trace ++ pluginEvents v t 1 k ++ [waitEvent v k] } _ rfl
          refine ⟨t1, e1, Or.inr ?_⟩
          rw [e2]
          show k ≠ 0
          omega

theorem vigem_connect_target (cfg : Config) (sys : System) (s : State) :
    (vigem_connect cfg sys s).2.target = s.target := by
  unfold vigem_connect
  cases s.vigem with
  | none => rfl
  | some v =>
    simp only
    split_ifs <;> rfl

theorem vigem_disconnect_target (s : State) : (vigem_disconnect s).target = s.target := by
  unfold vigem_disconnect
  cases s.vigem with
  | none => rfl
  | some v =>
    simp only
    split_ifs <;> rfl

theorem vigem_target_x360_register_notification_target (sys : System) (s : State)
    (n u : Nat) (t : VIGEM_TARGET) (ht : s.target = some t) :
    ∃ t1, (vigem_target_x360_register_notification sys s n u).2.target = some t1 ∧
      t1.SerialNo = t.SerialNo ∧ t1.State = t.State := by
  unfold vigem_target_x360_register_notification
  cases s.vigem with
  | none => exact ⟨t, ht, rfl, rfl⟩
  | some v =>
    simp only [ht]
    split_ifs
    · exact ⟨t, ht, rfl, rfl⟩
    · exact ⟨t, ht, rfl, rfl⟩
    · exact ⟨t, ht, rfl, rfl⟩
    · exact ⟨_, rfl, rfl, rfl⟩
    · exact ⟨_, rfl, rfl, rfl⟩

theorem vigem_target_ds4_register_notification_target (sys : System) (s : State)
    (n u : Nat) (t : VIGEM_TARGET) (ht : s.target = some t) :
    ∃ t1, (vigem_target_ds4_register_notification sys s n u).2.target = some t1 ∧
      t1.SerialNo = t.SerialNo ∧ t1.State = t.State := by
  unfold vigem_target_ds4_register_notification
  cases s.vigem with
  | none => exact ⟨t, ht, rfl, rfl⟩
  | some v =>
    simp only [ht]
    split_ifs
    · exact ⟨t, ht, rfl, rfl⟩
    · exact ⟨t, ht, rfl, rfl⟩
    · exact ⟨t, ht, rfl, rfl⟩
    · exact ⟨_, rfl, rfl, rfl⟩
    · exact ⟨_, rfl, rfl, rfl⟩

theorem vigem_target_x360_update_target (sys : System) (s : State) (r : XUSB_REPORT) :
    (vigem_target_x360_update sys s r).2.target = s.target := by
  unfold vigem_target_x360_update
  split
  · rfl
  · split
    · rfl
    · simp only
      split_ifs <;> rfl

theorem vigem_target_ds4_update_target (sys : System) (s : State) (r : DS4_REPORT) :
    (vigem_target_ds4_update sys s r).2.target = s.target := by
  unfold vigem_target_ds4_update
  split
  · rfl
  · split
    · rfl
    · simp only
      split_ifs <;> rfl

theorem vigem_target_ds4_update_ex_target (sys : System) (s : State) (r : DS4_REPORT_EX) :
    (vigem_target_ds4_update_ex sys s r).2.target = s.target := by
  unfold vigem_target_ds4_update_ex
  split
  · rfl
  · split
    · rfl
    · simp only
      split_ifs <;> rfl

theorem onTarget_keeps (s : State)
    (f : VIGEM_TARGET → List Event → VIGEM_TARGET × List Event)
    (hf : ∀ t tr, (f t tr).1.SerialNo = t.SerialNo ∧ (f t tr).1.State = t.State)
    (h : PluggedHasSerial s) : PluggedHasSerial (onTarget s f) := by
  obtain ⟨t, ht, hinv⟩ := h
  refine ⟨(f t s.trace).1, by simp [onTarget, ht], ?_⟩
  rw [(hf t s.trace).1, (hf t s.trace).2]
  exact hinv

theorem vigem_target_x360_unregister_notification_keeps (t : VIGEM_TARGET)
    (tr : List Event) :
    (vigem_target_x360_unregister_notification t tr).1.SerialNo = t.SerialNo ∧
      (vigem_target_x360_unregister_notification t tr).1.State = t.State := by
  unfold vigem_target_x360_unregister_notification
  simp only
  split_ifs <;> exact ⟨rfl, rfl⟩

/-- Every operation keeps the serial non-zero on a Connected or Disconnected target. -/
theorem applyOp_PluggedHasSerial (cfg : Config) (sys : System) (s : State) (op : Op)
    (h : PluggedHasSerial s) : PluggedHasSerial (applyOp cfg sys s op) := by
  have keep : ∀ s1 : State, s1.target = s.target → PluggedHasSerial s1 := by
    intro s1 e
    obtain ⟨t, ht, hinv⟩ := h
    exact ⟨t, by rw [e, ht], hinv⟩
  cases op with
  | connect => exact keep _ (vigem_connect_target cfg sys s)
  | disconnect => exact keep _ (vigem_disconnect_target s)
  | add =>
    obtain ⟨t, ht, hinv⟩ := h
    obtain ⟨t1, e1, e2⟩ := vigem_target_add_target cfg sys s t ht
    refine ⟨t1, e1, fun hst => ?_⟩
    rcases e2 with e2 | e2
    · rw [e2] at hst ⊢
      exact hinv hst
    · exact e2
  | remove =>
    obtain ⟨t, ht, hinv⟩ := h
    obtain ⟨t1, e1, e2, e3⟩ := vigem_target_remove_target sys s t ht
    refine ⟨t1, e1, fun hst => ?_⟩
    rw [e2]
    rcases e3 with e3 | ⟨e3, -⟩
    · rw [e3] at hst
      exact hinv hst
    · exact hinv (Or.inl e3)
  | x360_register_notification n u =>
    obtain ⟨t, ht, hinv⟩ := h
    obtain ⟨t1, e1, e2, e3⟩ := vigem_target_x360_register_notification_target sys s n u t ht
    exact ⟨t1, e1, by rw [e2, e3]; exact hinv⟩
  | ds4_register_notification n u =>
    obtain ⟨t, ht, hinv⟩ := h
    obtain ⟨t1, e1, e2, e3⟩ := vigem_target_ds4_register_notification_target sys s n u t ht
    exact ⟨t1, e1, by rw [e2, e3]; exact hinv⟩
  | x360_unregister_notification =>
    exact onTarget_keeps s _ vigem_target_x360_unregister_notification_keeps h
  | ds4_unregister_notification =>
    exact onTarget_keeps s _ vigem_target_x360_unregister_notification_keeps h
  | x360_update r => exact keep _ (vigem_target_x360_update_target sys s r)
  | ds4_update r => exact keep _ (vigem_target_ds4_update_target sys s r)
  | ds4_update_ex r => exact keep _ (vigem_target_ds4_update_ex_target sys s r)
  | set_vid vid => exact onTarget_keeps s _ (fun _ _ => ⟨rfl, rfl⟩) h
  | set_pid pid => exact onTarget_keeps s _ (fun _ _ => ⟨rfl, rfl⟩) h

theorem runOps_PluggedHasSerial (cfg : Config) (sys : System) (ops : List Op) :
    ∀ s : State, PluggedHasSerial s → PluggedHasSerial (runOps cfg sys ops s) := by
  induction ops with
  | nil => intro s h; exact h
  | cons op ops ih => intro s h; exact ih _ (applyOp_PluggedHasSerial cfg sys s op h)

theorem vigem_target_add_exhausted (cfg : Config) (sys : System) (s : State)
    (vigem : VIGEM_CLIENT) (target : VIGEM_TARGET)
    (hv : s.vigem = some vigem) (ht : s.target = some target)
    (hopen : vigem.hBusDevice ≠ INVALID_HANDLE_VALUE)
    (hnew : target.State ≠ VIGEM_TARGET_NEW) (hcon : target.State ≠ VIGEM_TARGET_CONNECTED)
    (hk : firstAccepted cfg sys vigem target s.trace = none) :
    vigem_target_add cfg sys s =
      (VIGEM_ERROR.NO_FREE_SLOT,
        { vigem := some vigem
          target := some { target with SerialNo := cfg.VIGEM_TARGETS_MAX + 1 }
          trace := s.trace ++ pluginEvents vigem target 1 cfg.VIGEM_TARGETS_MAX }) := by
  rw [← vigem_target_add_loop_exhausted cfg sys vigem target s.trace hk]
  simp [vigem_target_add, hv, ht, hopen, hnew, hcon]

theorem runOps_add (cfg : Config) (sys : System) (s : State) :
    runOps cfg sys [Op.add] s = (vigem_target_add cfg sys s).2 := rfl

theorem firstAccepted_sysReject (cfg : Config) (vigem : VIGEM_CLIENT) (target : VIGEM_TARGET)
    (tr : List Event) : firstAccepted cfg sysReject vigem target tr = none := by
  simp [firstAccepted, pluginAccepted, sysReject, failed]

/-- C3 fails as stated: a fresh Xbox-360 target, an open session and a driver that rejects
every plugin request.  After `vigem_target_add` (which returns no-free-slot) the serial is
`VIGEM_TARGETS_MAX + 1 = 65536`, not zero, while the state is still Initialized. -/
theorem serial_nonzero_after_exhausted_add :
    (runOps cfg0 sysReject [Op.add] stOpenX360).target =
      some { vigem_target_x360_alloc with SerialNo := 65536 } ∧
    ¬ (({ vigem_target_x360_alloc with SerialNo := 65536 } : VIGEM_TARGET).SerialNo ≠ 0 ↔
      (({ vigem_target_x360_alloc with SerialNo := 65536 } : VIGEM_TARGET).State =
          VIGEM_TARGET_CONNECTED ∨
        ({ vigem_target_x360_alloc with SerialNo := 65536 } : VIGEM_TARGET).State =
          VIGEM_TARGET_DISCONNECTED)) := by
  have h := vigem_target_add_exhausted cfg0 sysReject stOpenX360 { hBusDevice := 7 }
    vigem_target_x360_alloc rfl rfl (by decide) (by decide) (by decide)
    (firstAccepted_sysReject _ _ _ _)
  refine ⟨?_, by decide⟩
  rw [runOps_add, h]
  rfl

/-- C3 as the code has it: start from a target produced by `vigem_target_x360_alloc` or
`vigem_target_ds4_alloc`, any session and any driver, and apply any sequence of operations
(connect, disconnect, add, remove, register and unregister notification, updates, setters).
In the state reached, a target that is Connected or Disconnected has a non-zero serial. -/
theorem plugged_target_has_serial (cfg : Config) (sys : System)
    (vigem : Option VIGEM_CLIENT) (tr : List Event) (target : VIGEM_TARGET) (ops : List Op)
    (halloc : target = vigem_target_x360_alloc ∨ target = vigem_target_ds4_alloc) :
    ∃ t, (runOps cfg sys ops { vigem := vigem, target := some target, trace := tr }).target =
        some t ∧
      (t.State = VIGEM_TARGET_CONNECTED ∨ t.State = VIGEM_TARGET_DISCONNECTED →
        t.SerialNo ≠ 0) := by
  apply runOps_PluggedHasSerial
  refine ⟨target, rfl, fun hst => ?_⟩
  rcases halloc with rfl | rfl <;> revert hst <;> decide

theorem plugged_target_has_serial_witness :
    (vigem_target_ds4_alloc = vigem_target_x360_alloc ∨
      vigem_target_ds4_alloc = vigem_target_ds4_alloc) ∧
    ∃ t, (runOps cfg0 sysAccept [Op.add, Op.remove, Op.ds4_register_notification 100 5]
        { vigem := some { hBusDevice := 7 }, target := some vigem_target_ds4_alloc
          trace := [] }).target = some t ∧
      (t.State = VIGEM_TARGET_CONNECTED ∨ t.State = VIGEM_TARGET_DISCONNECTED →
        t.SerialNo ≠ 0) :=
  ⟨Or.inr rfl, plugged_target_has_serial cfg0 sysAccept _ _ _ _ (Or.inr rfl)⟩

/-! ## Registering the same callback twice -/

theorem vigem_target_x360_register_notification_stored (sys : System) (s s1 : State)
    (n u : Nat) (h : vigem_target_x360_register_notification sys s n u = (VIGEM_ERROR.NONE, s1)) :
    ∃ v t1, s1.vigem = some v ∧ v.hBusDevice ≠ INVALID_HANDLE_VALUE ∧ s1.target = some t1 ∧
      t1.SerialNo ≠ 0 ∧ n ≠ 0 ∧ t1.Notification = n := by
  unfold vigem_target_x360_register_notification at h
  cases hv : s.vigem with
  | none => simp [hv] at h
  | some v =>
    cases ht : s.target with
    | none => simp [hv, ht] at h
    | some t =>
      simp only [hv, ht] at h
      split_ifs at h with h1 h2 h3 h4
      · simp at h
      · simp at h
      · simp at h
      · simp only [Prod.mk.injEq, true_and] at h
        rw [← h]
        exact ⟨v, _, rfl, h1, rfl, fun e => h2 (Or.inl e), fun e => h2 (Or.inr e), rfl⟩
      · simp only [Prod.mk.injEq, true_and] at h
        rw [← h]
        exact ⟨v, _, rfl, h1, rfl, fun e => h2 (Or.inl e), fun e => h2 (Or.inr e), rfl⟩

theorem vigem_target_ds4_register_notification_stored (sys : System) (s s1 : State)
    (n u : Nat) (h : vigem_target_ds4_register_notification sys s n u = (VIGEM_ERROR.NONE, s1)) :
    ∃ v t1, s1.vigem = some v ∧ v.hBusDevice ≠ INVALID_HANDLE_VALUE ∧ s1.target = some t1 ∧
      t1.SerialNo ≠ 0 ∧ n ≠ 0 ∧ t1.Notification = n := by
  unfold vigem_target_ds4_register_notification at h
  cases hv : s.vigem with
  | none => simp [hv] at h
  | some v =>
    cases ht : s.target with
    | none => simp [hv, ht] at h
    | some t =>
      simp only [hv, ht] at h
      split_ifs at h with h1 h2 h3 h4
      · simp at h
      · simp at h
      · simp at h
      · simp only [Prod.mk.injEq, true_and] at h
        rw [← h]
        exact ⟨v, _, rfl, h1, rfl, fun e => h2 (Or.inl e), fun e => h2 (Or.inr e), rfl⟩
      · simp only [Prod.mk.injEq, true_and] at h
        rw [← h]
        exact ⟨v, _, rfl, h1, rfl, fun e => h2 (Or.inl e), fun e => h2 (Or.inr e), rfl⟩

/-- C11: `register` and `register2` are each one of the two registration functions.  If a
call of `register` with callback `notification` returned none, the next call on the state it
left, with the same callback (and any user pointer), returns callback-already-registered and
leaves that state as it is: no worker is started, no field of the target or the session is
changed. -/
theorem register_notification_twice (sys : System) (s s1 : State)
    (notification userData userData2 : Nat)
    (register register2 : System → State → Nat → Nat → VIGEM_ERROR × State)
    (hreg : register = vigem_target_x360_register_notification ∨
      register = vigem_target_ds4_register_notification)
    (hreg2 : register2 = vigem_target_x360_register_notification ∨
      register2 = vigem_target_ds4_register_notification)
    (h : register sys s notification userData = (VIGEM_ERROR.NONE, s1)) :
    register2 sys s1 notification userData2 =
      (VIGEM_ERROR.CALLBACK_ALREADY_REGISTERED, s1) := by
  have hs : ∃ v t1, s1.vigem = some v ∧ v.hBusDevice ≠ INVALID_HANDLE_VALUE ∧
      s1.target = some t1 ∧ t1.SerialNo ≠ 0 ∧ notification ≠ 0 ∧
      t1.Notification = notification := by
    rcases hreg with rfl | rfl
    · exact vigem_target_x360_register_notification_stored sys s s1 _ _ h
    · exact vigem_target_ds4_register_notification_stored sys s s1 _ _ h
  obtain ⟨v, t1, hv, ho, ht, h0, hn, hst⟩ := hs
  rcases hreg2 with rfl | rfl
  · simp [vigem_target_x360_register_notification, hv, ht, ho, h0, hn, hst]
  · simp [vigem_target_ds4_register_notification, hv, ht, ho, h0, hn, hst]

theorem register_notification_twice_witness :
    vigem_target_ds4_register_notification sysAccept stDs4Connected 100 5 =
      (VIGEM_ERROR.NONE,
        { vigem := some { hBusDevice := 7 }
          target := some { vigem_target_ds4_alloc with
            SerialNo := 1, State := VIGEM_TARGET_CONNECTED, Notification := 100
            NotificationUserData := 5, CancelNotificationThreadEvent := 9 }
          trace := [Event.CreateEvent, Event.thread Worker.ds4_notification 5] }) ∧
    vigem_target_ds4_register_notification sysAccept
        { vigem := some { hBusDevice := 7 }
          target := some { vigem_target_ds4_alloc with
            SerialNo := 1, State := VIGEM_TARGET_CONNECTED, Notification := 100
            NotificationUserData := 5, CancelNotificationThreadEvent := 9 }
          trace := [Event.CreateEvent, Event.thread Worker.ds4_notification 5] } 100 6 =
      (VIGEM_ERROR.CALLBACK_ALREADY_REGISTERED,
        { vigem := some { hBusDevice := 7 }
          target := some { vigem_target_ds4_alloc with
            SerialNo := 1, State := VIGEM_TARGET_CONNECTED, Notification := 100
            NotificationUserData := 5, CancelNotificationThreadEvent := 9 }
          trace := [Event.CreateEvent, Event.thread Worker.ds4_notification 5] }) :=
  ⟨rfl, register_notification_twice sysAccept stDs4Connected _ 100 5 6
    vigem_target_ds4_register_notification vigem_target_ds4_register_notification
    (Or.inr rfl) (Or.inr rfl) rfl⟩

/-! ## Report submission: theorems -/

/-- C13: session open, serial non-zero.  `vigem_target_ds4_update_ex` changes nothing but the
trace, to which it adds exactly one DS4-submit request carrying the target's serial and the
extended report; it returns not-supported when that request fails with invalid-parameter,
invalid-target when it fails with access-denied, and none when it completes successfully. -/
theorem vigem_target_ds4_update_ex_spec (sys : System) (s : State) (vigem : VIGEM_CLIENT)
    (target : VIGEM_TARGET) (report : DS4_REPORT_EX)
    (hv : s.vigem = some vigem) (ht : s.target = some target)
    (hopen : vigem.hBusDevice ≠ INVALID_HANDLE_VALUE) (hserial : target.SerialNo ≠ 0) :
    (vigem_target_ds4_update_ex sys s report).2 =
      { s with trace := s.trace ++ [Event.DeviceIoControl vigem.hBusDevice
        (Ioctl.DS4_SUBMIT_REPORT_EX target.SerialNo report)] } ∧
    ((sys.ioctl s.trace vigem.hBusDevice
        (Ioctl.DS4_SUBMIT_REPORT_EX target.SerialNo report)).ok = false →
      (sys.ioctl s.trace vigem.hBusDevice
        (Ioctl.DS4_SUBMIT_REPORT_EX target.SerialNo report)).lastError =
          ERROR_INVALID_PARAMETER →
      (vigem_target_ds4_update_ex sys s report).1 = VIGEM_ERROR.NOT_SUPPORTED) ∧
    ((sys.ioctl s.trace vigem.hBusDevice
        (Ioctl.DS4_SUBMIT_REPORT_EX target.SerialNo report)).ok = false →
      (sys.ioctl s.trace vigem.hBusDevice
        (Ioctl.DS4_SUBMIT_REPORT_EX target.SerialNo report)).lastError =
          ERROR_ACCESS_DENIED →
      (vigem_target_ds4_update_ex sys s report).1 = VIGEM_ERROR.INVALID_TARGET) ∧
    ((sys.ioctl s.trace vigem.hBusDevice
        (Ioctl.DS4_SUBMIT_REPORT_EX target.SerialNo report)).ok = true →
      (vigem_target_ds4_update_ex sys s report).1 = VIGEM_ERROR.NONE) := by
  refine ⟨?_, fun hok he => ?_, fun hok he => ?_, fun hok => ?_⟩
  · simp only [vigem_target_ds4_update_ex, hv, ht, if_neg hopen, if_neg hserial]
    split_ifs <;> rfl
  · simp [vigem_target_ds4_update_ex, hv, ht, hopen, hserial, hok, he,
      ERROR_INVALID_PARAMETER, ERROR_ACCESS_DENIED]
  · simp [vigem_target_ds4_update_ex, hv, ht, hopen, hserial, hok, he]
  · simp [vigem_target_ds4_update_ex, hv, ht, hopen, hserial, hok]

theorem vigem_target_ds4_update_ex_spec_witness :
    vigem_target_ds4_update_ex sysNoExtended stDs4Connected [1, 2, 3] =
      (VIGEM_ERROR.NOT_SUPPORTED,
        { stDs4Connected with
          trace := [Event.DeviceIoControl 7 (Ioctl.DS4_SUBMIT_REPORT_EX 1 [1, 2, 3])] }) ∧
    (vigem_target_ds4_update_ex sysNoExtended stDs4Connected [1, 2, 3]).1 =
      VIGEM_ERROR.NOT_SUPPORTED :=
  ⟨rfl, (vigem_target_ds4_update_ex_spec sysNoExtended stDs4Connected { hBusDevice := 7 }
    { vigem_target_ds4_alloc with SerialNo := 1, State := VIGEM_TARGET_CONNECTED } [1, 2, 3]
    rfl rfl (by decide) (by decide)).2.1 rfl rfl⟩

/-- C14 fails as stated: the driver fails the submit request with a general failure, and
both `vigem_target_x360_update` and `vigem_target_ds4_update` return none. -/
theorem update_returns_none_on_failure :
    (sysReject.ioctl [] 7 (Ioctl.XUSB_SUBMIT_REPORT 1 [1, 2])).ok = false ∧
    vigem_target_x360_update sysReject stX360Connected [1, 2] =
      (VIGEM_ERROR.NONE,
        { stX360Connected with
          trace := [Event.DeviceIoControl 7 (Ioctl.XUSB_SUBMIT_REPORT 1 [1, 2])] }) ∧
    (sysReject.ioctl [] 7 (Ioctl.DS4_SUBMIT_REPORT 1 [1, 2])).ok = false ∧
    vigem_target_ds4_update sysReject stDs4Connected [1, 2] =
      (VIGEM_ERROR.NONE,
        { stDs4Connected with
          trace := [Event.DeviceIoControl 7 (Ioctl.DS4_SUBMIT_REPORT 1 [1, 2])] }) :=
  ⟨rfl, rfl, rfl, rfl⟩

/-- C14 as the code has it: session open, serial non-zero.  `vigem_target_x360_update` and
`vigem_target_ds4_update` change nothing but the trace, to which each adds exactly one submit
request (nothing is retried); the value returned is invalid-target when that request fails
with access-denied and none in every other case, so a request that completed successfully
gives none. -/
theorem update_reports_access_denied (sys : System) (s : State) (vigem : VIGEM_CLIENT)
    (target : VIGEM_TARGET) (xr : XUSB_REPORT) (dr : DS4_REPORT)
    (hv : s.vigem = some vigem) (ht : s.target = some target)
    (hopen : vigem.hBusDevice ≠ INVALID_HANDLE_VALUE) (hserial : target.SerialNo ≠ 0) :
    (vigem_target_x360_update sys s xr).2 =
      { s with trace := s.trace ++ [Event.DeviceIoControl vigem.hBusDevice
        (Ioctl.XUSB_SUBMIT_REPORT target.SerialNo xr)] } ∧
    (vigem_target_x360_update sys s xr).1 =
      (if (sys.ioctl s.trace vigem.hBusDevice
            (Ioctl.XUSB_SUBMIT_REPORT target.SerialNo xr)).ok = false ∧
          (sys.ioctl s.trace vigem.hBusDevice
            (Ioctl.XUSB_SUBMIT_REPORT target.SerialNo xr)).lastError = ERROR_ACCESS_DENIED
        then VIGEM_ERROR.INVALID_TARGET else VIGEM_ERROR.NONE) ∧
    ((sys.ioctl s.trace vigem.hBusDevice
        (Ioctl.XUSB_SUBMIT_REPORT target.SerialNo xr)).ok = true →
      (vigem_target_x360_update sys s xr).1 = VIGEM_ERROR.NONE) ∧
    (vigem_target_ds4_update sys s dr).2 =
      { s with trace := s.trace ++ [Event.DeviceIoControl vigem.hBusDevice
        (Ioctl.DS4_SUBMIT_REPORT target.SerialNo dr)] } ∧
    (vigem_target_ds4_update sys s dr).1 =
      (if (sys.ioctl s.trace vigem.hBusDevice
            (Ioctl.DS4_SUBMIT_REPORT target.SerialNo dr)).ok = false ∧
          (sys.ioctl s.trace vigem.hBusDevice
            (Ioctl.DS4_SUBMIT_REPORT target.SerialNo dr)).lastError = ERROR_ACCESS_DENIED
        then VIGEM_ERROR.INVALID_TARGET else VIGEM_ERROR.NONE) ∧
    ((sys.ioctl s.trace vigem.hBusDevice
        (Ioctl.DS4_SUBMIT_REPORT target.SerialNo dr)).ok = true →
      (vigem_target_ds4_update sys s dr).1 = VIGEM_ERROR.NONE) := by
  refine ⟨?_, ?_, fun hok => ?_, ?_, ?_, fun hok => ?_⟩
  · simp only [vigem_target_x360_update, hv, ht, if_neg hopen, if_neg hserial]
    split_ifs <;> rfl
  · simp only [vigem_target_x360_update, hv, ht, if_neg hopen, if_neg hserial]
    split_ifs <;> rfl
  · simp [vigem_target_x360_update, hv, ht, hopen, hserial, hok]
  · simp only [vigem_target_ds4_update, hv, ht, if_neg hopen, if_neg hserial]
    split_ifs <;> rfl
  · simp only [vigem_target_ds4_update, hv, ht, if_neg hopen, if_neg hserial]
    split_ifs <;> rfl
  · simp [vigem_target_ds4_update, hv, ht, hopen, hserial, hok]

theorem update_reports_access_denied_witness :
    vigem_target_x360_update sysAccept stX360Connected [1, 2] =
      (VIGEM_ERROR.NONE,
        { stX360Connected with
          trace := [Event.DeviceIoControl 7 (Ioctl.XUSB_SUBMIT_REPORT 1 [1, 2])] }) ∧
    (vigem_target_x360_update sysAccept stX360Connected [1, 2]).1 = VIGEM_ERROR.NONE :=
  ⟨rfl, (update_reports_access_denied sysAccept stX360Connected { hBusDevice := 7 }
    { vigem_target_x360_alloc with SerialNo := 1, State := VIGEM_TARGET_CONNECTED } [1, 2]
    [1, 2] rfl rfl (by decide) (by decide)).2.2.1 rfl⟩

/-! ## Error mapping of the timed await -/

/-- From the label `retry:` on, the caller's buffer is as it was unless none is returned. -/
theorem vigem_target_ds4_await_output_report_timeout_retry_buffer (sys : System)
    (vigem : VIGEM_CLIENT) (target : VIGEM_TARGET) (ms : DWORD) (b : DS4_OUTPUT_BUFFER)
    (ov : OVERLAPPED) (fuel : Nat) :
    ∀ (tr : List Event) (e : VIGEM_ERROR) (b1 : DS4_OUTPUT_BUFFER) (tr1 : List Event),
      vigem_target_ds4_await_output_report_timeout_retry sys vigem target ms b ov fuel tr =
        some (e, b1, tr1) → e ≠ VIGEM_ERROR.NONE → b1 = b := by
  induction fuel with
  | zero => intro tr e b1 tr1 h; simp [vigem_target_ds4_await_output_report_timeout_retry] at h
  | succ n ih =>
    intro tr e b1 tr1 h hne
    simp only [vigem_target_ds4_await_output_report_timeout_retry] at h
    split_ifs at h with h1 h2 h3 h4
    · simp only [Option.some.injEq, Prod.mk.injEq] at h; exact h.2.1.symm
    · simp only [Option.some.injEq, Prod.mk.injEq] at h; exact h.2.1.symm
    · exact ih _ _ _ _ h hne
    · simp only [Option.some.injEq, Prod.mk.injEq] at h; exact h.2.1.symm
    · simp only [Option.some.injEq, Prod.mk.injEq] at h; exact absurd h.1.symm hne

/-- C12: session open, serial non-zero, buffer `b` non-null; the bounded wait of the call
ends as `awaitCompletionEx` says, and a wait that fails leaves a non-zero error code (the
contract of `GetOverlappedResultEx` and `GetLastError`).  If the wait fails with
io-incomplete or wait-timeout, the call issues one cancel, for the session's handle and the
overlapped structure of the call, and returns timed-out; if it fails with access-denied the
call returns invalid-target; any other failure returns winapi.  In these cases one request
was issued and the buffer is as it was.  If the wait succeeds the call returns none with the
bytes of the response in the buffer.  However the call ends, and with no assumption on the
driver, the buffer is written only when none is returned. -/
theorem vigem_target_ds4_await_output_report_timeout_errors (sys : System) (s s1 : State)
    (vigem : VIGEM_CLIENT) (target : VIGEM_TARGET) (ms : DWORD) (b : DS4_OUTPUT_BUFFER)
    (b1 : Option DS4_OUTPUT_BUFFER) (e : VIGEM_ERROR) (fuel fuel1 : Nat)
    (hv : s.vigem = some vigem) (ht : s.target = some target)
    (hopen : vigem.hBusDevice ≠ INVALID_HANDLE_VALUE) (hserial : target.SerialNo ≠ 0)
    (hcontract : (awaitCompletionEx sys vigem target s.trace ms).ok = false →
      (awaitCompletionEx sys vigem target s.trace ms).lastError ≠ ERROR_SUCCESS) :
    ((awaitCompletionEx sys vigem target s.trace ms).ok = false →
      (awaitCompletionEx sys vigem target s.trace ms).lastError = ERROR_IO_INCOMPLETE ∨
        (awaitCompletionEx sys vigem target s.trace ms).lastError = WAIT_TIMEOUT →
      vigem_target_ds4_await_output_report_timeout sys (fuel + 1) s ms (some b) =
        some (VIGEM_ERROR.TIMED_OUT, some b,
          { s with trace := s.trace ++
            [awaitEvent vigem target,
             Event.CancelIoEx vigem.hBusDevice (DEVICE_IO_CONTROL_BEGIN sys s.trace)] })) ∧
    ((awaitCompletionEx sys vigem target s.trace ms).ok = false →
      (awaitCompletionEx sys vigem target s.trace ms).lastError = ERROR_ACCESS_DENIED →
      vigem_target_ds4_await_output_report_timeout sys (fuel + 1) s ms (some b) =
        some (VIGEM_ERROR.INVALID_TARGET, some b,
          { s with trace := s.trace ++ [awaitEvent vigem target] })) ∧
    ((awaitCompletionEx sys vigem target s.trace ms).ok = false →
      (awaitCompletionEx sys vigem target s.trace ms).lastError ≠ ERROR_ACCESS_DENIED →
      (awaitCompletionEx sys vigem target s.trace ms).lastError ≠ ERROR_IO_INCOMPLETE →
      (awaitCompletionEx sys vigem target s.trace ms).lastError ≠ WAIT_TIMEOUT →
      vigem_target_ds4_await_output_report_timeout sys (fuel + 1) s ms (some b) =
        some (VIGEM_ERROR.WINAPI, some b,
          { s with trace := s.trace ++ [awaitEvent vigem target] })) ∧
    ((awaitCompletionEx sys vigem target s.trace ms).ok = true →
      vigem_target_ds4_await_output_report_timeout sys (fuel + 1) s ms (some b) =
        some (VIGEM_ERROR.NONE, some (awaitCompletionEx sys vigem target s.trace ms).Buffer,
          { s with trace := s.trace ++ [awaitEvent vigem target] })) ∧
    (vigem_target_ds4_await_output_report_timeout sys fuel1 s ms (some b) = some (e, b1, s1) →
      e ≠ VIGEM_ERROR.NONE → b1 = some b) := by
  refine ⟨fun hok he => ?_, fun hok he => ?_, fun hok h1 h2 h3 => ?_, fun hok => ?_,
    fun h hne => ?_⟩
  · have hna : (sys.ioctlEx s.trace vigem.hBusDevice
        (Ioctl.DS4_AWAIT_OUTPUT_AVAILABLE target.SerialNo) ms).lastError ≠
        ERROR_ACCESS_DENIED := by
      simp only [awaitCompletionEx] at he
      rcases he with he | he <;> rw [he] <;> decide
    simp only [awaitCompletionEx] at hok he
    simp [vigem_target_ds4_await_output_report_timeout,
      vigem_target_ds4_await_output_report_timeout_retry, hv, ht, hopen, hserial, hok, hna,
      he, awaitEvent]
  · simp only [awaitCompletionEx] at hok he
    simp [vigem_target_ds4_await_output_report_timeout,
      vigem_target_ds4_await_output_report_timeout_retry, hv, ht, hopen, hserial, hok, he,
      awaitEvent]
  · have h4 := hcontract hok
    simp only [awaitCompletionEx] at hok h1 h2 h3 h4
    have h5 : ¬ ((sys.ioctlEx s.trace vigem.hBusDevice
        (Ioctl.DS4_AWAIT_OUTPUT_AVAILABLE target.SerialNo) ms).lastError = ERROR_SUCCESS ∧
        (sys.ioctlEx s.trace vigem.hBusDevice
        (Ioctl.DS4_AWAIT_OUTPUT_AVAILABLE target.SerialNo) ms).SerialNo ≠ target.SerialNo) :=
      fun h6 => h4 h6.1
    simp only [vigem_target_ds4_await_output_report_timeout,
      vigem_target_ds4_await_output_report_timeout_retry, hv, ht, if_neg hopen,
      if_neg hserial, hok, if_true, if_neg h1, if_neg h5, awaitEvent]
    rw [if_neg (by rintro (h | h); exact h2 h; exact h3 h)]
    rfl
  · simp only [awaitCompletionEx] at hok ⊢
    simp [vigem_target_ds4_await_output_report_timeout,
      vigem_target_ds4_await_output_report_timeout_retry, hv, ht, hopen, hserial, hok,
      awaitEvent]
  · simp only [vigem_target_ds4_await_output_report_timeout, hv, ht, if_neg hopen,
      if_neg hserial] at h
    cases hr : vigem_target_ds4_await_output_report_timeout_retry sys vigem target ms b
        (DEVICE_IO_CONTROL_BEGIN sys s.trace) fuel1 s.trace with
    | none => simp [hr] at h
    | some r =>
      obtain ⟨e2, b2, tr2⟩ := r
      simp only [hr, Option.map_some', Option.some.injEq, Prod.mk.injEq] at h
      obtain ⟨he, hb, -⟩ := h
      have := vigem_target_ds4_await_output_report_timeout_retry_buffer sys vigem target ms b
        _ fuel1 s.trace e2 b2 tr2 hr (by rw [he]; exact hne)
      rw [← hb, this]

theorem vigem_target_ds4_await_output_report_timeout_errors_witness :
    vigem_target_ds4_await_output_report_timeout sysTimeout 1 stDs4Connected 50
        (some [0, 0]) =
      some (VIGEM_ERROR.TIMED_OUT, some [0, 0],
        { stDs4Connected with
          trace := [Event.DeviceIoControl 7 (Ioctl.DS4_AWAIT_OUTPUT_AVAILABLE 1),
                    Event.CancelIoEx 7 { hEvent := 9 }] }) :=
  (vigem_target_ds4_await_output_report_timeout_errors sysTimeout stDs4Connected
    stDs4Connected { hBusDevice := 7 }
    { vigem_target_ds4_alloc with SerialNo := 1, State := VIGEM_TARGET_CONNECTED } 50 [0, 0]
    none VIGEM_ERROR.NONE 0 0 rfl rfl (by decide) (by decide) (fun _ => by decide)).1 rfl
    (Or.inr rfl)

/-! ## Notification workers: theorems -/

theorem x360_notification_loop_exited (Target : VIGEM_TARGET) (Client : VIGEM_CLIENT)
    (UserData : Nat) (os : List X360Outcome) :
    ∀ xrn, (x360_notification_loop Target Client UserData xrn os).exited =
      os.any x360_exits := by
  induction os with
  | nil => intro xrn; rfl
  | cons o os ih =>
    intro xrn
    simp only [x360_notification_loop, List.any_cons]
    by_cases hok : o.ok = true
    · by_cases hn : o.Notification = 0
      · simp [hok, hn, x360_exits]
      · simp [hok, hn, x360_exits, ih]
    · by_cases he : o.lastError = ERROR_ACCESS_DENIED ∨ o.lastError = ERROR_OPERATION_ABORTED
      · simp only [hok, if_pos he]
        rcases he with he | he <;> simp [hok, he, x360_exits]
      · have he2 := he
        rw [not_or] at he2
        simp [hok, he, he2.1, he2.2, x360_exits, ih]

theorem x360_reference_events_handled (Target : VIGEM_TARGET) (Client : VIGEM_CLIENT)
    (UserData serial : Nat) (o : X360Outcome) (os : List X360Outcome)
    (ho : x360_exits o = false) :
    x360_reference_events Target Client UserData serial (o :: os) =
      (if o.ok then [x360_request Client serial, x360_call Target Client UserData o]
        else [x360_request Client serial]) ++
        x360_reference_events Target Client UserData o.xrn.SerialNo os := by
  simp only [x360_reference_events]
  rw [List.takeWhile_cons_of_pos (by simp [ho])]
  simp only [List.map_cons, List.zip_cons_cons, List.flatMap_cons, List.getLastD_cons,
    List.append_assoc]

theorem x360_reference_events_exit (Target : VIGEM_TARGET) (Client : VIGEM_CLIENT)
    (UserData serial : Nat) (o : X360Outcome) (os : List X360Outcome)
    (ho : x360_exits o = true) :
    x360_reference_events Target Client UserData serial (o :: os) =
      [x360_request Client serial] := by
  simp only [x360_reference_events]
  rw [List.takeWhile_cons_of_neg (by simp [ho])]
  rfl

theorem x360_notification_loop_events (Target : VIGEM_TARGET) (Client : VIGEM_CLIENT)
    (UserData : Nat) (os : List X360Outcome) :
    ∀ xrn, (x360_notification_loop Target Client UserData xrn os).events =
      x360_reference_events Target Client UserData xrn.SerialNo os := by
  induction os with
  | nil => intro xrn; rfl
  | cons o os ih =>
    intro xrn
    simp only [x360_notification_loop]
    by_cases hok : o.ok = true
    · by_cases hn : o.Notification = 0
      · rw [x360_reference_events_exit _ _ _ _ _ _ (by simp [x360_exits, hok, hn])]
        simp [hok, hn, x360_request]
      · rw [x360_reference_events_handled _ _ _ _ _ _ (by simp [x360_exits, hok, hn])]
        simp [hok, hn, x360_request, x360_call, ih]
    · by_cases he : o.lastError = ERROR_ACCESS_DENIED ∨ o.lastError = ERROR_OPERATION_ABORTED
      · rw [x360_reference_events_exit _ _ _ _ _ _
          (by rcases he with he | he <;> simp [x360_exits, hok, he])]
        simp [hok, he, x360_request]
      · have he2 := he
        rw [not_or] at he2
        rw [x360_reference_events_handled _ _ _ _ _ _
          (by simp [x360_exits, hok, he2.1, he2.2])]
        simp [hok, he, x360_request, ih]

theorem x360_notification_loop_callbacks (Target : VIGEM_TARGET) (Client : VIGEM_CLIENT)
    (UserData : Nat) (os : List X360Outcome) :
    ∀ xrn, callbacks (x360_notification_loop Target Client UserData xrn os).events =
      x360_reference_callbacks Target Client UserData os := by
  induction os with
  | nil => intro xrn; rfl
  | cons o os ih =>
    intro xrn
    simp only [x360_notification_loop, x360_reference_callbacks] at ih ⊢
    by_cases hok : o.ok = true
    · by_cases hn : o.Notification = 0
      · simp [hok, hn, x360_exits, callbacks, List.takeWhile_cons]
      · have := ih o.xrn
        simp only [callbacks] at this
        simp [hok, hn, x360_exits, x360_call, callbacks, List.takeWhile_cons,
          List.filter_cons, this]
    · by_cases he : o.lastError = ERROR_ACCESS_DENIED ∨ o.lastError = ERROR_OPERATION_ABORTED
      · simp only [hok, if_pos he]
        rcases he with he | he <;>
          simp [hok, he, x360_exits, callbacks, List.takeWhile_cons]
      · have he2 := he
        rw [not_or] at he2
        have := ih o.xrn
        simp only [callbacks] at this
        simp [hok, he, he2.1, he2.2, x360_exits, callbacks, List.takeWhile_cons,
          List.filter_cons, this]

theorem x360_notification_loop_after_exit (Target : VIGEM_TARGET) (Client : VIGEM_CLIENT)
    (UserData : Nat) (o : X360Outcome) (post : List X360Outcome) (ho : x360_exits o = true)
    (pre : List X360Outcome) :
    ∀ xrn, x360_notification_loop Target Client UserData xrn (pre ++ o :: post) =
      x360_notification_loop Target Client UserData xrn (pre ++ [o]) := by
  induction pre with
  | nil =>
    intro xrn
    simp only [List.nil_append, x360_notification_loop]
    simp only [x360_exits, Bool.or_eq_true, Bool.and_eq_true, decide_eq_true_eq,
      Bool.not_eq_true'] at ho
    rcases ho with ⟨hok, hn⟩ | ⟨hok, he⟩
    · simp [hok, hn]
    · simp [hok, he]
  | cons p pre ih =>
    intro xrn
    have h1 := ih p.xrn
    simp only [List.cons_append, x360_notification_loop]
    simp only [List.append_eq, h1]

theorem ds4_notification_loop_exited (Target : VIGEM_TARGET) (Client : VIGEM_CLIENT)
    (UserData : Nat) (os : List DS4Outcome) :
    ∀ ds4rn, (ds4_notification_loop Target Client UserData ds4rn os).exited =
      os.any ds4_exits := by
  induction os with
  | nil => intro ds4rn; rfl
  | cons o os ih =>
    intro ds4rn
    simp only [ds4_notification_loop, List.any_cons]
    by_cases hok : o.ok = true
    · by_cases hn : o.Notification = 0
      · simp [hok, hn, ds4_exits]
      · simp [hok, hn, ds4_exits, ih]
    · by_cases he : o.lastError = ERROR_ACCESS_DENIED ∨ o.lastError = ERROR_OPERATION_ABORTED
      · simp only [hok, if_pos he]
        rcases he with he | he <;> simp [hok, he, ds4_exits]
      · have he2 := he
        rw [not_or] at he2
        simp [hok, he, he2.1, he2.2, ds4_exits, ih]

theorem ds4_reference_events_handled (Target : VIGEM_TARGET) (Client : VIGEM_CLIENT)
    (UserData serial : Nat) (o : DS4Outcome) (os : List DS4Outcome)
    (ho : ds4_exits o = false) :
    ds4_reference_events Target Client UserData serial (o :: os) =
      (if o.ok then [ds4_request Client serial, ds4_call Target Client UserData o]
        else [ds4_request Client serial]) ++
        ds4_reference_events Target Client UserData o.ds4rn.SerialNo os := by
  simp only [ds4_reference_events]
  rw [List.takeWhile_cons_of_pos (by simp [ho])]
  simp only [List.map_cons, List.zip_cons_cons, List.flatMap_cons, List.getLastD_cons,
    List.append_assoc]

theorem ds4_reference_events_exit (Target : VIGEM_TARGET) (Client : VIGEM_CLIENT)
    (UserData serial : Nat) (o : DS4Outcome) (os : List DS4Outcome)
    (ho : ds4_exits o = true) :
    ds4_reference_events Target Client UserData serial (o :: os) =
      [ds4_request Client serial] := by
  simp only [ds4_reference_events]
  rw [List.takeWhile_cons_of_neg (by simp [ho])]
  rfl

theorem ds4_notification_loop_events (Target : VIGEM_TARGET) (Client : VIGEM_CLIENT)
    (UserData : Nat) (os : List DS4Outcome) :
    ∀ ds4rn, (ds4_notification_loop Target Client UserData ds4rn os).events =
      ds4_reference_events Target Client UserData ds4rn.SerialNo os := by
  induction os with
  | nil => intro ds4rn; rfl
  | cons o os ih =>
    intro ds4rn
    simp only [ds4_notification_loop]
    by_cases hok : o.ok = true
    · by_cases hn : o.Notification = 0
      · rw [ds4_reference_events_exit _ _ _ _ _ _ (by simp [ds4_exits, hok, hn])]
        simp [hok, hn, ds4_request]
      · rw [ds4_reference_events_handled _ _ _ _ _ _ (by simp [ds4_exits, hok, hn])]
        simp [hok, hn, ds4_request, ds4_call, ih]
    · by_cases he : o.lastError = ERROR_ACCESS_DENIED ∨ o.lastError = ERROR_OPERATION_ABORTED
      · rw [ds4_reference_events_exit _ _ _ _ _ _
          (by rcases he with he | he <;> simp [ds4_exits, hok, he])]
        simp [hok, he, ds4_request]
      · have he2 := he
        rw [not_or] at he2
        rw [ds4_reference_events_handled _ _ _ _ _ _
          (by simp [ds4_exits, hok, he2.1, he2.2])]
        simp [hok, he, ds4_request, ih]

theorem ds4_notification_loop_callbacks (Target : VIGEM_TARGET) (Client : VIGEM_CLIENT)
    (UserData : Nat) (os : List DS4Outcome) :
    ∀ ds4rn, callbacks (ds4_notification_loop Target Client UserData ds4rn os).events =
      ds4_reference_callbacks Target Client UserData os := by
  induction os with
  | nil => intro ds4rn; rfl
  | cons o os ih =>
    intro ds4rn
    simp only [ds4_notification_loop, ds4_reference_callbacks] at ih ⊢
    by_cases hok : o.ok = true
    · by_cases hn : o.Notification = 0
      · simp [hok, hn, ds4_exits, callbacks, List.takeWhile_cons]
      · have := ih o.ds4rn
        simp only [callbacks] at this
        simp [hok, hn, ds4_exits, ds4_call, callbacks, List.takeWhile_cons,
          List.filter_cons, this]
    · by_cases he : o.lastError = ERROR_ACCESS_DENIED ∨ o.lastError = ERROR_OPERATION_ABORTED
      · simp only [hok, if_pos he]
        rcases he with he | he <;>
          simp [hok, he, ds4_exits, callbacks, List.takeWhile_cons]
      · have he2 := he
        rw [not_or] at he2
        have := ih o.ds4rn
        simp only [callbacks] at this
        simp [hok, he, he2.1, he2.2, ds4_exits, callbacks, List.takeWhile_cons,
          List.filter_cons, this]

theorem ds4_notification_loop_after_exit (Target : VIGEM_TARGET) (Client : VIGEM_CLIENT)
    (UserData : Nat) (o : DS4Outcome) (post : List DS4Outcome) (ho : ds4_exits o = true)
    (pre : List DS4Outcome) :
    ∀ ds4rn, ds4_notification_loop Target Client UserData ds4rn (pre ++ o :: post) =
      ds4_notification_loop Target Client UserData ds4rn (pre ++ [o]) := by
  induction pre with
  | nil =>
    intro ds4rn
    simp only [List.nil_append, ds4_notification_loop]
    simp only [ds4_exits, Bool.or_eq_true, Bool.and_eq_true, decide_eq_true_eq,
      Bool.not_eq_true'] at ho
    rcases ho with ⟨hok, hn⟩ | ⟨hok, he⟩
    · simp [hok, hn]
    · simp [hok, he]
  | cons p pre ih =>
    intro ds4rn
    have h1 := ih p.ds4rn
    simp only [List.cons_append, ds4_notification_loop]
    simp only [List.append_eq, h1]

theorem takeWhile_append_stop {α : Type} (p : α → Bool) (x : α) (hx : p x = false)
    (l : List α) : (l ++ [x]).takeWhile p = l.takeWhile p := by
  induction l with
  | nil => simp [List.takeWhile_cons, hx]
  | cons a l ih =>
    simp only [List.cons_append, List.takeWhile_cons, ih]

/-- C15: the worker threads, run on any list of outcomes.  What the worker does is, in
order: for every outcome before the first exit outcome (a success seen with a null stored
callback, or a failure with access-denied or operation-aborted) the request-notification
request that outcome ended, on the session's handle, followed by one call of the stored
callback with (session, target, decoded fields of that response, user pointer of the
registration) when the outcome is a success and by nothing when it is a failure; then the
request once more.  The worker has returned exactly when some outcome is an exit outcome.
Its calls are one for every successful outcome before the first exit outcome.  Hence, when
an outcome `x` is a success seen with a null stored callback, whatever comes after `x`
changes nothing: the worker has returned, and its calls are those due to the outcomes before
`x`.  The same holds for the DS4 worker. -/
theorem notification_worker_fold (Target : VIGEM_TARGET) (Client : VIGEM_CLIENT)
    (UserData : Nat) (xs pre post : List X360Outcome) (x : X360Outcome)
    (ds dpre dpost : List DS4Outcome) (d : DS4Outcome) :
    ((x360_notification_thread Target Client UserData xs).events =
        x360_reference_events Target Client UserData Target.SerialNo xs ∧
      (x360_notification_thread Target Client UserData xs).exited = xs.any x360_exits ∧
      callbacks (x360_notification_thread Target Client UserData xs).events =
        x360_reference_callbacks Target Client UserData xs ∧
      (x.ok = true → x.Notification = 0 →
        x360_notification_thread Target Client UserData (pre ++ x :: post) =
          x360_notification_thread Target Client UserData (pre ++ [x]) ∧
        (x360_notification_thread Target Client UserData (pre ++ x :: post)).exited = true ∧
        callbacks (x360_notification_thread Target Client UserData (pre ++ x :: post)).events =
          x360_reference_callbacks Target Client UserData pre)) ∧
    ((ds4_notification_thread Target Client UserData ds).events =
        ds4_reference_events Target Client UserData Target.SerialNo ds ∧
      (ds4_notification_thread Target Client UserData ds).exited = ds.any ds4_exits ∧
      callbacks (ds4_notification_thread Target Client UserData ds).events =
        ds4_reference_callbacks Target Client UserData ds ∧
      (d.ok = true → d.Notification = 0 →
        ds4_notification_thread Target Client UserData (dpre ++ d :: dpost) =
          ds4_notification_thread Target Client UserData (dpre ++ [d]) ∧
        (ds4_notification_thread Target Client UserData (dpre ++ d :: dpost)).exited = true ∧
        callbacks (ds4_notification_thread Target Client UserData (dpre ++ d :: dpost)).events =
          ds4_reference_callbacks Target Client UserData dpre)) := by
  refine ⟨⟨x360_notification_loop_events _ _ _ _ _, x360_notification_loop_exited _ _ _ _ _,
    x360_notification_loop_callbacks _ _ _ _ _, fun hok hn => ?_⟩,
    ⟨ds4_notification_loop_events _ _ _ _ _, ds4_notification_loop_exited _ _ _ _ _,
    ds4_notification_loop_callbacks _ _ _ _ _, fun hok hn => ?_⟩⟩
  · have hx : x360_exits x = true := by simp [x360_exits, hok, hn]
    have h1 := x360_notification_loop_after_exit Target Client UserData x post hx pre
      (XUSB_REQUEST_NOTIFICATION_INIT Target.SerialNo)
    refine ⟨h1, ?_, ?_⟩
    · simp only [x360_notification_thread]
      rw [x360_notification_loop_exited]
      simp [hx]
    · simp only [x360_notification_thread]
      rw [h1, x360_notification_loop_callbacks]
      simp only [x360_reference_callbacks]
      rw [takeWhile_append_stop _ _ (by simp [hx])]
  · have hd : ds4_exits d = true := by simp [ds4_exits, hok, hn]
    have h1 := ds4_notification_loop_after_exit Target Client UserData d dpost hd dpre
      (DS4_REQUEST_NOTIFICATION_INIT Target.SerialNo)
    refine ⟨h1, ?_, ?_⟩
    · simp only [ds4_notification_thread]
      rw [ds4_notification_loop_exited]
      simp [hd]
    · simp only [ds4_notification_thread]
      rw [h1, ds4_notification_loop_callbacks]
      simp only [ds4_reference_callbacks]
      rw [takeWhile_append_stop _ _ (by simp [hd])]

theorem notification_worker_fold_witness :
    x360_notification_thread workerTarget { hBusDevice := 7 } 5 workerOutcomes =
      { events :=
          [WorkerEvent.DeviceIoControl 7 (Ioctl.XUSB_REQUEST_NOTIFICATION 1),
           WorkerEvent.x360_callback 100 { hBusDevice := 7 } workerTarget 192 64 1 5,
           WorkerEvent.DeviceIoControl 7 (Ioctl.XUSB_REQUEST_NOTIFICATION 1),
           WorkerEvent.DeviceIoControl 7 (Ioctl.XUSB_REQUEST_NOTIFICATION 1)]
        exited := true } ∧
    (x360_notification_thread workerTarget { hBusDevice := 7 } 5 workerOutcomes).events =
      x360_reference_events workerTarget { hBusDevice := 7 } 5 1 workerOutcomes ∧
    x360_reference_events workerTarget { hBusDevice := 7 } 5 1 workerOutcomes =
      [WorkerEvent.DeviceIoControl 7 (Ioctl.XUSB_REQUEST_NOTIFICATION 1),
       WorkerEvent.x360_callback 100 { hBusDevice := 7 } workerTarget 192 64 1 5,
       WorkerEvent.DeviceIoControl 7 (Ioctl.XUSB_REQUEST_NOTIFICATION 1),
       WorkerEvent.DeviceIoControl 7 (Ioctl.XUSB_REQUEST_NOTIFICATION 1)] :=
  ⟨rfl, (notification_worker_fold workerTarget { hBusDevice := 7 } 5 workerOutcomes [] []
    { ok := true, lastError := 0, Notification := 0, xrn := XUSB_REQUEST_NOTIFICATION_INIT 1 }
    [] [] []
    { ok := true, lastError := 0, Notification := 0
      ds4rn := DS4_REQUEST_NOTIFICATION_INIT 1 }).1.1, by decide⟩

end ViGEm
